import Mathlib

/-!
# Med: the EHR record API (`backend/`) and its front end (`medai/`)

A shallow embedding of `backend/models/EHR.js`, `backend/controllers/ehrController.js`
and `backend/routes/ehrRoutes.js`.

* The collection behind the Mongoose model `Ehr` is a list of documents in natural
  (insertion) order; no handler of the repository removes or rewrites a document.
* The three Mongoose calls the handlers make (`new EHR(..)` followed by `save()`,
  `find().sort({createdAt: -1})`, `findOne({patientId})`) are functions returning
  `Except Message _`: the error case is the exception the handler's `catch` receives,
  and a `Message` is its `err.message`, given by where it comes from (the driver, a
  validation error with its entries, a duplicate key) and not by its wording. The sort
  is taken to be stable and `findOne` to follow natural order, so both are functions of
  the collection.
* A request runs in an environment `Env`: the clock read by `Date.now` and the outcome of
  the database driver for the awaited call (`fault = some m` when the driver rejects
  with message `m`).
* `Date` values are milliseconds since the epoch. A request body is read the way
  `new EHR(req.body)` reads it: path by path, each supplied value either casting to the
  type of its path or not. The body may supply `_id`; when it does not, the identifier
  comes from a counter kept by the server process, which stands for the ObjectId
  generator. The collection keeps `_id` unique. The `_id` Mongoose adds to the elements
  of document arrays is left out.

The front end (`medai/src`) is embedded component by component: each event handler is a
function from the component state and the outcome of what it awaits (a confirmation, a
`fetch`, a timer) to the new state and the requests sent. The list view holds the
documents the server returned; the edit view holds a JavaScript object, whose updaters
work on property names given at run time; the consultation card carries a clock in
milliseconds and its pending timers. Strings are sequences of Unicode characters, on
which the string methods agree with JavaScript for text of the Basic Multilingual Plane;
numbers are natural numbers, which a JavaScript number holds exactly below 2^53.
-/

namespace Med

/-! ## Data model (`models/EHR.js`) -/

/-- A JavaScript `Date`, as milliseconds since the epoch. -/
abbrev Date := Int

/-- A document identifier, as a number. The ObjectId generator issues the values of a
counter; a request body may supply any value. -/
abbrev ObjectId := Nat

/-- A value supplied in a request body for a path of schema type `Date`: it casts to a
date, or it does not and Mongoose records a cast error for the path, or it is `null`. -/
inductive DateInput where
  | castable (t : Date)
  | malformed (raw : String)
  | null
  deriving DecidableEq

/-- A value supplied in a request body as `_id`: it casts to an identifier, or it does
not and Mongoose records a cast error for the path. A supplied `null` is left out. -/
inductive IdInput where
  | castable (id : ObjectId)
  | malformed (raw : String)
  deriving DecidableEq

/-- A declared path for which the body carries a value that does not cast to the type of
the path, with that value as text. -/
structure CastFailure where
  path : String
  value : String
  deriving DecidableEq

/-- Schema path `patient.name`. -/
structure Name where
  family : Option String := none
  given : List String := []
  fullName : Option String := none
  deriving DecidableEq

/-- An element of `patient.telecom`. -/
structure Telecom where
  system : Option String := none
  value : Option String := none
  use : Option String := none
  deriving DecidableEq

/-- Schema path `patient.address`. -/
structure Address where
  line : List String := []
  city : Option String := none
  country : Option String := none
  deriving DecidableEq

/-- Schema path `patient`; `D` is the type held by the `Date` paths. -/
structure Patient (D : Type) where
  name : Name := {}
  gender : Option String := none
  birthDate : Option D := none
  telecom : List Telecom := []
  address : Address := {}
  deriving DecidableEq

/-- Schema path `encounter.class`. -/
structure EncounterClass where
  system : Option String := none
  code : Option String := none
  display : Option String := none
  deriving DecidableEq

/-- Schema path `encounter.practitioner`. -/
structure Practitioner where
  id : Option String := none
  name : Option String := none
  qualification : Option String := none
  deriving DecidableEq

/-- Schema path `encounter.period`. -/
structure Period (D : Type) where
  start : Option D := none
  «end» : Option D := none
  deriving DecidableEq

/-- Schema path `encounter`. -/
structure Encounter (D : Type) where
  encounterId : Option String := none
  status : Option String := none
  «class» : EncounterClass := {}
  practitioner : Practitioner := {}
  period : Period D := {}
  deriving DecidableEq

/-- An element of `conditions`. -/
structure Condition (D : Type) where
  conditionId : Option String := none
  code : Option String := none
  clinicalStatus : Option String := none
  verificationStatus : Option String := none
  onsetDateTime : Option D := none
  deriving DecidableEq

/-- An element of `observations`. -/
structure Observation where
  observationId : Option String := none
  code : Option String := none
  valueString : Option String := none
  status : Option String := none
  deriving DecidableEq

/-- An element of `medications`. -/
structure Medication (D : Type) where
  medId : Option String := none
  name : Option String := none
  status : Option String := none
  dosage : Option String := none
  frequency : Option String := none
  route : Option String := none
  authoredOn : Option D := none
  deriving DecidableEq

/-- Schema path `carePlan`. -/
structure CarePlan where
  planId : Option String := none
  status : Option String := none
  intent : Option String := none
  description : Option String := none
  deriving DecidableEq

/-- An element of `entities`. -/
structure Entity where
  entity : Option String := none
  type : Option String := none
  deriving DecidableEq

/-- Schema path `vitals`. -/
structure Vitals where
  temperature : Option String := none
  bloodPressure : Option String := none
  heartRate : Option String := none
  oxygenSaturation : Option String := none
  deriving DecidableEq

/-- A request body (`req.body`) as `new EHR(req.body)` reads it against `EhrSchema`: one
field per declared path, holding what the supplied value casts to, and `none` (or the
empty list) when the body does not carry the path, carries `null`, or carries a value
that does not cast. For the paths of type `Date` and for `_id`, which every schema has,
the field holds the supplied value itself. `castFailures` lists the other paths whose
supplied value does not cast (an object where a string is declared, a string where an
array of documents is declared, and so on). Properties the schema does not declare are
dropped by Mongoose and do not appear. -/
structure EhrInput where
  _id : Option IdInput := none
  castFailures : List CastFailure := []
  patientId : Option String := none
  summary : Option String := none
  patient : Patient DateInput := {}
  encounter : Encounter DateInput := {}
  conditions : List (Condition DateInput) := []
  observations : List Observation := []
  medications : List (Medication DateInput) := []
  carePlan : CarePlan := {}
  entities : List Entity := []
  vitals : Vitals := {}
  allergies : List String := []
  pastHistory : List String := []
  followUpDate : Option DateInput := none
  createdAt : Option DateInput := none
  deriving DecidableEq

/-- A document of the model `Ehr`: the schema paths after casting, the identifier `_id`
and `createdAt`, which the schema defaults to `Date.now`; `⊥` is a `createdAt` of `null`,
which sorts before every date. -/
structure EhrDoc where
  _id : ObjectId
  patientId : Option String
  summary : Option String
  patient : Patient Date
  encounter : Encounter Date
  conditions : List (Condition Date)
  observations : List Observation
  medications : List (Medication Date)
  carePlan : CarePlan
  entities : List Entity
  vitals : Vitals
  allergies : List String
  pastHistory : List String
  followUpDate : Option Date
  createdAt : WithBot Date
  deriving DecidableEq

/-! ## The Mongoose operations the controller calls -/

/-- What is wrong with a path in a Mongoose `ValidationError`: a required value is
missing, a value is not among the `enum` values, or the supplied value does not cast. -/
inductive IssueKind where
  | required
  | notInEnum (value : String)
  | castFailed (value : String)
  deriving DecidableEq

/-- One entry of a Mongoose `ValidationError`: the failing path and what is wrong. -/
structure Issue where
  path : String
  kind : IssueKind
  deriving DecidableEq

/-- The `message` of an error the awaited Mongoose call rejects with: the text of a
failure of the driver, the message of a `ValidationError` with the given entries, or the
message of the duplicate-key error for an `_id` that is already stored. The wording of
the last two is Mongoose's and the database's and is not spelled out. -/
inductive Message where
  | driver (text : String)
  | validation (issues : List Issue)
  | duplicateKey (id : ObjectId)
  deriving DecidableEq

/-- Casting a supplied value to the schema type `Date`: a value that does not cast, like
`null`, leaves the path without a date. -/
def castDate : Option DateInput → Option Date
  | some (DateInput.castable t) => some t
  | _ => none

/-- The cast error Mongoose records for a `Date` path whose supplied value does not cast. -/
def dateIssue (path : String) : Option DateInput → List Issue
  | some (DateInput.malformed raw) => [⟨path, IssueKind.castFailed raw⟩]
  | _ => []

/-- The cast error Mongoose records for a supplied `_id` that does not cast. -/
def idIssue : Option IdInput → List Issue
  | some (IdInput.malformed raw) => [⟨"_id", IssueKind.castFailed raw⟩]
  | _ => []

/-- Cast of the `patient` sub-object. -/
def Patient.cast (p : Patient DateInput) : Patient Date :=
  { name := p.name, gender := p.gender, birthDate := castDate p.birthDate,
    telecom := p.telecom, address := p.address }

/-- Cast of the `encounter` sub-object. -/
def Encounter.cast (e : Encounter DateInput) : Encounter Date :=
  { encounterId := e.encounterId, status := e.status, «class» := e.«class»,
    practitioner := e.practitioner,
    period := { start := castDate e.period.start, «end» := castDate e.period.«end» } }

/-- Cast of one element of `conditions`. -/
def Condition.cast (c : Condition DateInput) : Condition Date :=
  { conditionId := c.conditionId, code := c.code, clinicalStatus := c.clinicalStatus,
    verificationStatus := c.verificationStatus, onsetDateTime := castDate c.onsetDateTime }

/-- Cast of one element of `medications`. -/
def Medication.cast (m : Medication DateInput) : Medication Date :=
  { medId := m.medId, name := m.name, status := m.status, dosage := m.dosage,
    frequency := m.frequency, route := m.route, authoredOn := castDate m.authoredOn }

/-- Cast errors of the array `conditions`, element `i` onwards. -/
def conditionIssues : Nat → List (Condition DateInput) → List Issue
  | _, [] => []
  | i, c :: cs =>
      dateIssue ("conditions." ++ toString i ++ ".onsetDateTime") c.onsetDateTime
        ++ conditionIssues (i + 1) cs

/-- Cast errors of the array `medications`, element `i` onwards. -/
def medicationIssues : Nat → List (Medication DateInput) → List Issue
  | _, [] => []
  | i, m :: ms =>
      dateIssue ("medications." ++ toString i ++ ".authoredOn") m.authoredOn
        ++ medicationIssues (i + 1) ms

/-- All cast errors recorded while a request body is set on a new document. -/
def castIssues (body : EhrInput) : List Issue :=
  idIssue body._id
    ++ body.castFailures.map (fun f => ⟨f.path, IssueKind.castFailed f.value⟩)
    ++ dateIssue "patient.birthDate" body.patient.birthDate
    ++ dateIssue "encounter.period.start" body.encounter.period.start
    ++ dateIssue "encounter.period.end" body.encounter.period.«end»
    ++ conditionIssues 0 body.conditions
    ++ medicationIssues 0 body.medications
    ++ dateIssue "followUpDate" body.followUpDate
    ++ dateIssue "createdAt" body.createdAt

/-- A Mongoose document under construction: the cast values and the cast errors that
`validate` will report. -/
structure Document where
  doc : EhrDoc
  castErrors : List Issue
  deriving DecidableEq

/-- The constructor call `new EHR(req.body)`: every declared path is cast and set. The
document keeps the `_id` of the body when it supplies one that casts, and receives the
generated identifier `oid` otherwise. `createdAt` is what the body supplies, `null`
included, and takes the schema default `Date.now` when the body does not set it (or sets
a value that does not cast). -/
def EHR.new (body : EhrInput) (oid : ObjectId) (now : Date) : Document :=
  { doc :=
      { _id :=
          match body._id with
          | some (IdInput.castable id) => id
          | _ => oid
        patientId := body.patientId
        summary := body.summary
        patient := body.patient.cast
        encounter := body.encounter.cast
        conditions := body.conditions.map Condition.cast
        observations := body.observations
        medications := body.medications.map Medication.cast
        carePlan := body.carePlan
        entities := body.entities
        vitals := body.vitals
        allergies := body.allergies
        pastHistory := body.pastHistory
        followUpDate := castDate body.followUpDate
        createdAt :=
          match body.createdAt with
          | some (DateInput.castable t) => (t : WithBot Date)
          | some DateInput.null => ⊥
          | _ => (now : WithBot Date) }
    castErrors := castIssues body }

/-- The validator of `required: true` on a `String` path: the value must be a string of
positive length. -/
def requiredIssue (path : String) : Option String → List Issue
  | some s => if s = "" then [⟨path, IssueKind.required⟩] else []
  | none => [⟨path, IssueKind.required⟩]

/-- The values of `enum: ["male", "female", "other"]` on `patient.gender`. -/
def genderEnum : List String := ["male", "female", "other"]

/-- The `enum` validator: an unset path passes, a set one must be a listed value. -/
def enumIssue (path : String) (allowed : List String) : Option String → List Issue
  | some s =>
      if s ∈ allowed then [] else [⟨path, IssueKind.notInEnum s⟩]
  | none => []

/-- Document validation, as run by `save()`: the cast errors recorded at construction and
the failures of the schema validators (`required` on `patientId` and `summary`, `enum` on
`patient.gender`). The order of the entries carries no meaning. -/
def validate (d : Document) : List Issue :=
  d.castErrors
    ++ requiredIssue "patientId" d.doc.patientId
    ++ requiredIssue "summary" d.doc.summary
    ++ enumIssue "patient.gender" genderEnum d.doc.patient.gender

/-- The call `ehr.save()`: validation first, then the insert, which fails when the driver
fails and, the index on `_id` being unique, when a stored document has the same `_id`.
On success the document is appended to the collection. -/
def save (store : List EhrDoc) (d : Document) (fault : Option String) :
    Except Message (List EhrDoc) :=
  match validate d with
  | [] =>
      match fault with
      | none =>
          if d.doc._id ∈ store.map (fun r => r._id) then
            Except.error (Message.duplicateKey d.doc._id)
          else Except.ok (store ++ [d.doc])
      | some m => Except.error (Message.driver m)
  | i :: is => Except.error (Message.validation (i :: is))

/-- Insertion of a document into a list ordered by `createdAt` descending; the document
goes before the first one that is not newer than it. -/
def insertByCreatedAtDesc (r : EhrDoc) : List EhrDoc → List EhrDoc
  | [] => [r]
  | x :: xs => if x.createdAt ≤ r.createdAt then r :: x :: xs
      else x :: insertByCreatedAtDesc r xs

/-- The cursor modifier `.sort({ createdAt: -1 })`: a stable sort, newest first. -/
def sortByCreatedAtDesc : List EhrDoc → List EhrDoc
  | [] => []
  | x :: xs => insertByCreatedAtDesc x (sortByCreatedAtDesc xs)

/-- The query `EHR.find().sort({ createdAt: -1 })`. -/
def EHR.findSorted (store : List EhrDoc) (fault : Option String) :
    Except Message (List EhrDoc) :=
  match fault with
  | none => Except.ok (sortByCreatedAtDesc store)
  | some m => Except.error (Message.driver m)

/-- The query `EHR.findOne({ patientId })`: the first document, in natural order, whose
`patientId` equals the given string; `none` stands for the `null` result. -/
def EHR.findOne (store : List EhrDoc) (patientId : String) (fault : Option String) :
    Except Message (Option EhrDoc) :=
  match fault with
  | none => Except.ok (store.find? fun r => decide (r.patientId = some patientId))
  | some m => Except.error (Message.driver m)

/-! ## HTTP layer (`controllers/ehrController.js`, `routes/ehrRoutes.js`) -/

/-- The JSON bodies the handlers send. -/
inductive Body where
  /-- The body `{ message, ehr }`. -/
  | messageEhr (message : String) (ehr : EhrDoc)
  /-- An array of documents. -/
  | records (rs : List EhrDoc)
  /-- A single document. -/
  | record (r : EhrDoc)
  /-- The body `{ message }`. -/
  | message (message : String)
  /-- The body `{ error }`, with `err.message` as `error`. -/
  | error (error : Message)
  /-- The body `{ message, error }`, with `err.message` as `error`. -/
  | messageError (message : String) (error : Message)
  deriving DecidableEq

/-- An HTTP response: status code and JSON body. `res.json` without `res.status` sends
status 200. -/
structure Response where
  status : Nat
  body : Body
  deriving DecidableEq

/-- The state of the server process: the collection and the ObjectId generator. -/
structure Server where
  store : List EhrDoc
  oidCounter : Nat
  deriving DecidableEq

/-- What a request reads from outside the server state. -/
structure Env where
  now : Date
  fault : Option String := none
  deriving DecidableEq

/-- Handler `createEHR`. -/
def createEHR (srv : Server) (env : Env) (body : EhrInput) : Response × Server :=
  let ehr := EHR.new body srv.oidCounter env.now
  match save srv.store ehr env.fault with
  | Except.ok store =>
      (⟨201, Body.messageEhr "EHR stored successfully" ehr.doc⟩,
        { store := store, oidCounter := srv.oidCounter + 1 })
  | Except.error m =>
      (⟨500, Body.error m⟩, { store := srv.store, oidCounter := srv.oidCounter + 1 })

/-- Handler `getAllEHRs`. -/
def getAllEHRs (srv : Server) (env : Env) : Response × Server :=
  match EHR.findSorted srv.store env.fault with
  | Except.ok records => (⟨200, Body.records records⟩, srv)
  | Except.error m => (⟨500, Body.error m⟩, srv)

/-- Handler `getEHRByPatient`; `patient_id` is `req.params.patient_id`. -/
def getEHRByPatient (srv : Server) (env : Env) (patient_id : String) : Response × Server :=
  match EHR.findOne srv.store patient_id env.fault with
  | Except.ok none => (⟨404, Body.message "No record found"⟩, srv)
  | Except.ok (some record) => (⟨200, Body.record record⟩, srv)
  | Except.error m => (⟨500, Body.error m⟩, srv)

/-- Handler `getEHRByPatientId`, the function assigned to `exports.getEHRByPatientId`;
`patientId` is `req.params.patientId`. -/
def getEHRByPatientId (srv : Server) (env : Env) (patientId : String) : Response × Server :=
  match EHR.findOne srv.store patientId env.fault with
  | Except.ok none => (⟨404, Body.message "EHR not found"⟩, srv)
  | Except.ok (some ehr) => (⟨200, Body.record ehr⟩, srv)
  | Except.error m => (⟨500, Body.messageError "Server Error" m⟩, srv)

/-- The property names of the object `require("../controllers/ehrController")` yields:
the last statement of the file assigns a new object to `module.exports`, so what was
put on `exports` before is not part of it. -/
def controllerExports : List String := ["createEHR", "getAllEHRs", "getEHRByPatient"]

/-- The HTTP methods the front end uses against `/api/ehr`. -/
inductive Method where
  | GET
  | POST
  | PUT
  | DELETE
  deriving DecidableEq

/-- A request below the mount point `/api/ehr`: `path` lists the segments that follow the
mount point, already URL-decoded. -/
structure Request where
  method : Method
  path : List String
  body : EhrInput := {}
  deriving DecidableEq

/-- A routed handler together with what it reads from the request. -/
inductive Call where
  | createEHR (body : EhrInput)
  | getAllEHRs
  | getEHRByPatient (patient_id : String)
  deriving DecidableEq

/-- The router of `routes/ehrRoutes.js`: `POST /`, `GET /` and `GET /:patient_id`, tried
in that order; `none` when no route matches. -/
def router (req : Request) : Option Call :=
  match req.method, req.path.filter (fun seg => decide (seg ≠ "")) with
  | Method.POST, [] => some (Call.createEHR req.body)
  | Method.GET, [] => some Call.getAllEHRs
  | Method.GET, [seg] => some (Call.getEHRByPatient seg)
  | _, _ => none

/-- Running a routed handler. -/
def Call.run (srv : Server) (env : Env) : Call → Response × Server
  | Call.createEHR body => Med.createEHR srv env body
  | Call.getAllEHRs => Med.getAllEHRs srv env
  | Call.getEHRByPatient patient_id => Med.getEHRByPatient srv env patient_id

/-- Dispatch of a request by the router; `none` when no route of this router matches. -/
def handle (srv : Server) (env : Env) (req : Request) : Option (Response × Server) :=
  (router req).map (Call.run srv env)

/-- The server state after a request has passed the router: the state the routed handler
leaves, or the same state when no route matches and the request falls through. -/
def Server.after (srv : Server) (env : Env) (req : Request) : Server :=
  match handle srv env req with
  | some (_, srv1) => srv1
  | none => srv

/-- The 24-digit hexadecimal text of an identifier, as it appears in JSON and in the
URLs the front end builds from `_id`. -/
def ObjectId.toHexString (n : ObjectId) : String :=
  let ds := Nat.toDigits 16 n
  String.mk (List.replicate (24 - ds.length) '0' ++ ds)

/-! ## Predicates used in the statements -/

/-- A supplied `Date` value that is absent, `null` or casts. -/
def dateOk : Option DateInput → Bool
  | some (DateInput.malformed _) => false
  | _ => true

/-- A supplied `_id` that is absent or casts. -/
def idOk : Option IdInput → Bool
  | some (IdInput.malformed _) => false
  | _ => true

/-- The paths of a body other than the two required ones fit the schema: every supplied
value casts to the type of its path, `_id` and the `Date` values included, and
`patient.gender`, when present, is one of the enum values. -/
def fitsSchema (body : EhrInput) : Bool :=
  idOk body._id
  && body.castFailures.isEmpty
  && (match body.patient.gender with
    | none => true
    | some g => decide (g ∈ genderEnum))
  && dateOk body.patient.birthDate
  && dateOk body.encounter.period.start
  && dateOk body.encounter.period.«end»
  && body.conditions.all (fun c => dateOk c.onsetDateTime)
  && body.medications.all (fun m => dateOk m.authoredOn)
  && dateOk body.followUpDate
  && dateOk body.createdAt

/-- A required `String` path that is absent or empty. -/
def missing : Option String → Bool
  | none => true
  | some s => decide (s = "")

/-- Identifiers in the collection are pairwise distinct, as the unique index on `_id`
keeps them. -/
def Server.WF (srv : Server) : Prop :=
  (srv.store.map (fun r => r._id)).Nodup

/-- The server before any request. -/
def Server.init : Server := { store := [], oidCounter := 0 }

/-- The body of the first testable property: `patientId` "P1001", `summary` "Flu". -/
def fluBody : EhrInput := { patientId := some "P1001", summary := some "Flu" }

/-- A body that supplies its own `_id`. -/
def suppliedIdBody : EhrInput :=
  { _id := some (IdInput.castable 255), patientId := some "P1001", summary := some "Flu" }

/-- A body that supplies `createdAt: null`. -/
def nullCreatedAtBody : EhrInput :=
  { patientId := some "P1001", summary := some "Flu", createdAt := some DateInput.null }

/-- A body with a `medications` sequence of two entries. -/
def twoMedsBody : EhrInput :=
  { patientId := some "P1001", summary := some "Flu",
    medications :=
      [{ medId := some "M1", name := some "Paracetamol", dosage := some "500mg",
         authoredOn := some (DateInput.castable 1000) },
       { medId := some "M2", name := some "Ibuprofen", route := some "oral" }] }

/-! ## Front end: the patient list (`Dashboard/DashBoardPatientRecord/PatientRecord.jsx`)

The state `patients` holds the documents `GET /api/ehr` returned. -/

/-- How the awaited `fetch` of `handleDelete` ends: it resolves with a response, whose
`ok` flag is given, or it rejects (network error). -/
inductive FetchOutcome where
  | response (ok : Bool)
  | rejected
  deriving DecidableEq

/-- What one call of `handleDelete` does: the requests it sends under `/api/ehr` and the
`patients` state it leaves. -/
structure DeleteEffect where
  requests : List Request
  patients : List EhrDoc
  deriving DecidableEq

/-- The function `handleDelete(id)`: `confirmed` is the answer of `window.confirm`,
`outcome` that of the `fetch`; `patients` is the state the updater receives. -/
def handleDelete (patients : List EhrDoc) (confirmed : Bool) (outcome : FetchOutcome)
    (id : ObjectId) : DeleteEffect :=
  if confirmed then
    match outcome with
    | FetchOutcome.response true =>
        { requests := [⟨Method.DELETE, [ObjectId.toHexString id], {}⟩]
          patients := patients.filter (fun p => decide (p._id ≠ id)) }
    | FetchOutcome.response false =>
        { requests := [⟨Method.DELETE, [ObjectId.toHexString id], {}⟩]
          patients := patients }
    | FetchOutcome.rejected =>
        { requests := [⟨Method.DELETE, [ObjectId.toHexString id], {}⟩]
          patients := patients }
  else { requests := [], patients := patients }

/-- The method `String.prototype.includes`: `sub` occurs in `s` as a contiguous run. -/
def includes (s sub : String) : Bool := decide (sub.data <:+: s.data)

/-- The callback of `patients.filter` in `filteredPatients`. The case mapping
`String.prototype.toLowerCase` is the parameter `toLowerCase`. -/
def matchesSearch (toLowerCase : String → String) (searchTerm : String)
    (patient : EhrDoc) : Bool :=
  let name :=
    match patient.patient.name.given.head? with
    | some g => toLowerCase g
    | none => ""
  let id :=
    match patient.patientId with
    | some pid => toLowerCase pid
    | none => ""
  let disease :=
    match patient.summary with
    | some sm => toLowerCase sm
    | none => ""
  includes name (toLowerCase searchTerm) || includes id (toLowerCase searchTerm)
    || includes disease (toLowerCase searchTerm)

/-- The list `filteredPatients` the table renders. -/
def filteredPatients (toLowerCase : String → String) (patients : List EhrDoc)
    (searchTerm : String) : List EhrDoc :=
  patients.filter (matchesSearch toLowerCase searchTerm)

/-- The two numbers of the footer "Showing X of Y patients". -/
def footerCounts (toLowerCase : String → String) (patients : List EhrDoc)
    (searchTerm : String) : Nat × Nat :=
  ((filteredPatients toLowerCase patients searchTerm).length, patients.length)

/-- A case mapping for ASCII letters, used to evaluate the search on examples. -/
def asciiLower (s : String) : String := String.mk (s.data.map Char.toLower)

/-! ## Front end: the edit view (`PatientEditDetails/PatientEdit.jsx`)

The state `patient` is the parsed JSON of the response, a JavaScript object. -/

/-- A JavaScript value as far as JSON data and form input go. An object is the list of
its own properties, read by the first entry of a name. -/
inductive JsValue where
  | undefined
  | null
  | bool (b : Bool)
  | number (n : Int)
  | string (s : String)
  | array (elems : List JsValue)
  | object (props : List (String × JsValue))

/-- Property read `o[k]` on the properties of an object: `undefined` when absent. -/
def getProp : List (String × JsValue) → String → JsValue
  | [], _ => JsValue.undefined
  | (k1, v) :: rest, k => if k1 = k then v else getProp rest k

/-- The properties of `{ ...o, [k]: v }`: `k` is overwritten where it stands, or added
at the end. -/
def setProp : List (String × JsValue) → String → JsValue → List (String × JsValue)
  | [], k, v => [(k, v)]
  | (k1, v1) :: rest, k, v =>
      if k1 = k then (k1, v) :: rest else (k1, v1) :: setProp rest k v

/-- The index properties "0", "1", .. of array elements, from index `i` on. -/
def indexed : Nat → List JsValue → List (String × JsValue)
  | _, [] => []
  | i, x :: xs => (toString i, x) :: indexed (i + 1) xs

/-- The own enumerable properties an object spread `{ ...x }` copies: those of an
object, the index properties of an array or of a string (one per character), and none
for the other values. -/
def spread : JsValue → List (String × JsValue)
  | JsValue.object props => props
  | JsValue.array elems => indexed 0 elems
  | JsValue.string s => indexed 0 (s.data.map fun c => JsValue.string (String.singleton c))
  | _ => []

/-- The elements an array spread `[...x]` copies; `none` when `x` is not iterable and the
spread throws a `TypeError`. -/
def iterate : JsValue → Option (List JsValue)
  | JsValue.array elems => some elems
  | JsValue.string s => some (s.data.map fun c => JsValue.string (String.singleton c))
  | _ => none

/-- Element read `a[i]` on the elements of an array: `undefined` past the end. -/
def getIndex (elems : List JsValue) (i : Nat) : JsValue := elems.getD i JsValue.undefined

/-- The assignment `a[i] = v` on the elements of an array: past the end the array grows
and the skipped positions read `undefined`. -/
def setIndex (elems : List JsValue) (i : Nat) (v : JsValue) : List JsValue :=
  if i < elems.length then elems.set i v
  else elems ++ List.replicate (i - elems.length) JsValue.undefined ++ [v]

/-- The updater `handleArrayChange(index, field, value, key)` passes to `setPatient`,
applied to the properties `prev` of the current state. -/
def handleArrayChange (index : Nat) (field : String) (value : JsValue) (key : String)
    (prev : List (String × JsValue)) : Except String (List (String × JsValue)) :=
  match iterate (getProp prev key) with
  | none => Except.error "TypeError: prev[key] is not iterable"
  | some updated =>
      Except.ok (setProp prev key
        (JsValue.array (setIndex updated index
          (JsValue.object (setProp (spread (getIndex updated index)) field value)))))

/-- A `patient` state with two medications, as the edit view holds it. -/
def editState : List (String × JsValue) :=
  [("_id", JsValue.string "000000000000000000000000"),
   ("patientId", JsValue.string "P1001"),
   ("summary", JsValue.string "Flu"),
   ("medications", JsValue.array
      [JsValue.object [("name", JsValue.string "Paracetamol"),
                       ("dosage", JsValue.string "500mg")],
       JsValue.object [("name", JsValue.string "Ibuprofen")]]),
   ("allergies", JsValue.array [JsValue.string "Pollen"])]

/-! ## Front end: sign-in (`Auth/SignInPage/SignInPage.jsx`) -/

/-- The `user` object of the sign-in response. -/
structure User where
  role : Option String := none
  firstName : Option String := none
  lastName : Option String := none
  email : Option String := none
  deriving DecidableEq

/-- A value kept in `localStorage`: a plain string, or the JSON text of a user as
`JSON.stringify` writes it. -/
inductive StoredValue where
  | text (s : String)
  | userJson (u : User)
  deriving DecidableEq

/-- How the awaited `axios.post` to `/api/auth/signin` ends: with a response
`{ token, user }`, or by rejecting, possibly with a message from the server. -/
inductive SigninOutcome where
  | success (token : String) (user : User)
  | failure (message : Option String)
  deriving DecidableEq

/-- What `handleSignin` acts on: the storage, the navigations made and the alerts
shown, each alert with title, text and icon. -/
structure Browser where
  localStorage : List (String × StoredValue) := []
  navigated : List String := []
  alerts : List (String × String × String) := []
  deriving DecidableEq

/-- The call `localStorage.setItem(key, value)`. -/
def setItem : List (String × StoredValue) → String → StoredValue → List (String × StoredValue)
  | [], k, v => [(k, v)]
  | (k1, v1) :: rest, k, v =>
      if k1 = k then (k1, v) :: rest else (k1, v1) :: setItem rest k v

/-- The call `localStorage.getItem(key)`. -/
def getItem : List (String × StoredValue) → String → Option StoredValue
  | [], _ => none
  | (k1, v) :: rest, k => if k1 = k then some v else getItem rest k

/-- The function `handleSignin`, after the form values are read and the request is
awaited. -/
def handleSignin (b : Browser) (outcome : SigninOutcome) : Browser :=
  match outcome with
  | SigninOutcome.success token user =>
      { localStorage :=
          setItem (setItem b.localStorage "token" (StoredValue.text token)) "user"
            (StoredValue.userJson user)
        alerts := b.alerts ++ [("Success", "Login successful!", "success")]
        navigated :=
          if user.role = some "Doctor" then b.navigated ++ ["/dashboard"]
          else b.navigated ++ ["/"] }
  | SigninOutcome.failure message =>
      { localStorage := b.localStorage
        alerts := b.alerts ++
          [("Error",
            (match message with
              | some m => if m = "" then "Login failed" else m
              | none => "Login failed"),
            "error")]
        navigated := b.navigated }

/-! ## Front end: the consultation card (`Dashboard/ConsultationCard/Consultation.jsx`)

Time is in milliseconds. The pending `setTimeout` callbacks are kept in the order in
which they will run. -/

/-- The object `setPatientData` receives when processing ends. -/
structure PatientData where
  name : String
  disease : String
  symptoms : List String
  medications : List String
  notes : String
  deriving DecidableEq

/-- The hardcoded extraction result. -/
def extractedData : PatientData :=
  { name := "John Smith"
    disease := "Hypertension"
    symptoms := ["Headaches", "Dizziness"]
    medications := ["Lisinopril", "HCTZ"]
    notes := "Patient shows signs of improved blood pressure after treatment." }

/-- The two callbacks the card passes to `setTimeout`: the one armed by `startRecording`,
which calls `stopRecording`, and the one armed by `stopRecording`, which ends
processing. -/
inductive TimeoutKind where
  | stopRecording
  | processingDone
  deriving DecidableEq

/-- A pending timeout: the time at which it runs and its callback. -/
structure Timeout where
  due : Nat
  callback : TimeoutKind
  deriving DecidableEq

/-- The state of a mounted `ConsultationCard`: its four `useState` values, the clock,
the pending timeouts and, while the effect on `isRecording` holds an interval, the time
of the next tick. -/
structure Card where
  isRecording : Bool := false
  isProcessing : Bool := false
  recordingTime : Nat := 0
  patientData : Option PatientData := none
  now : Nat := 0
  timeouts : List Timeout := []
  interval : Option Nat := none
  deriving DecidableEq

/-- Arming a timeout: it runs after the pending ones that are due no later. -/
def schedule (t : Timeout) : List Timeout → List Timeout
  | [] => [t]
  | x :: xs => if x.due ≤ t.due then x :: schedule t xs else t :: x :: xs

/-- The function `startRecording`; the second component is the argument of the call
`onStart(true)`. The effect on `isRecording` starts the one-second interval. -/
def Card.startRecording (c : Card) : Card × Option Bool :=
  ({ c with
      isRecording := true
      recordingTime := 0
      patientData := none
      timeouts := schedule ⟨c.now + 8000, TimeoutKind.stopRecording⟩ c.timeouts
      interval := if c.isRecording then c.interval else some (c.now + 1000) },
    some true)

/-- The function `stopRecording`. The cleanup of the effect clears the interval. -/
def Card.stopRecording (c : Card) : Card :=
  { c with
      isRecording := false
      isProcessing := true
      timeouts := schedule ⟨c.now + 3000, TimeoutKind.processingDone⟩ c.timeouts
      interval := none }

/-- The callback `stopRecording` arms: processing ends and the result is set. -/
def Card.processingDone (c : Card) : Card :=
  { c with isProcessing := false, patientData := some extractedData }

/-- One tick of the interval, due at `due`. -/
def Card.tick (c : Card) (due : Nat) : Card :=
  { c with recordingTime := c.recordingTime + 1, now := due, interval := some (due + 1000) }

/-- Running a timeout callback at its due time. -/
def Card.runTimeout (c : Card) (t : Timeout) (rest : List Timeout) : Card :=
  match t.callback with
  | TimeoutKind.stopRecording =>
      Card.stopRecording { c with now := t.due, timeouts := rest }
  | TimeoutKind.processingDone =>
      Card.processingDone { c with now := t.due, timeouts := rest }

/-- The next timer event due by `target`, if any: the first pending timeout or the
interval tick, the timeout first when both are due at the same time. -/
def Card.fireNext (target : Nat) (c : Card) : Option Card :=
  match c.timeouts, c.interval with
  | [], none => none
  | [], some i => if i ≤ target then some (c.tick i) else none
  | t :: rest, none => if t.due ≤ target then some (c.runTimeout t rest) else none
  | t :: rest, some i =>
      if t.due ≤ i then
        if t.due ≤ target then some (c.runTimeout t rest) else none
      else if i ≤ target then some (c.tick i) else none

/-- Letting time pass up to `target`: timer events run in order of their due time; at
most `fuel` of them are run. -/
def Card.advance : Nat → Nat → Card → Card
  | 0, _, c => c
  | fuel + 1, target, c =>
      match c.fireNext target with
      | some c1 => Card.advance fuel target c1
      | none => { c with now := target }

/-- Letting `ms` milliseconds pass. In that time the interval ticks at most
`ms / 1000 + 1` times and each pending timeout runs and arms at most one more. -/
def Card.wait (ms : Nat) (c : Card) : Card :=
  Card.advance (ms / 1000 + 2 * c.timeouts.length + 2) (c.now + ms) c

/-- A bound on the number of timer events that can still run by `target`: the ticks of
the interval, and for each pending timeout itself and the one it may arm. -/
def Card.pendingEvents (target : Nat) (c : Card) : Nat :=
  (match c.interval with
    | some i => if i ≤ target then (target - i) / 1000 + 1 else 0
    | none => 0)
  + (c.timeouts.map fun t =>
      match t.callback with
      | TimeoutKind.stopRecording => 2
      | TimeoutKind.processingDone => 1).sum

/-- The render branch "Default View": the Start button is shown. -/
def Card.showsStart (c : Card) : Bool :=
  !c.isRecording && !c.isProcessing && c.patientData.isNone

/-- What happens to the card: a click on Start or on Stop, where the button is
rendered, or the passing of time. -/
inductive CardEvent where
  | clickStart
  | clickStop
  | wait (ms : Nat)
  deriving DecidableEq

/-- One event on the card; the second component is the argument of a call of `onStart`,
if one is made. A button that is not rendered cannot be clicked. -/
def Card.step (c : Card) : CardEvent → Card × Option Bool
  | CardEvent.clickStart => if c.showsStart then c.startRecording else (c, none)
  | CardEvent.clickStop => if c.isRecording then (c.stopRecording, none) else (c, none)
  | CardEvent.wait ms => (c.wait ms, none)

/-- The card after a sequence of events. -/
def Card.run (c : Card) : List CardEvent → Card
  | [] => c
  | e :: es => Card.run (c.step e).1 es

/-- The number of the phases "recording", "processing", "result" the card renders. -/
def Card.phasesShown (c : Card) : Nat :=
  (if c.isRecording then 1 else 0) + (if c.isProcessing then 1 else 0)
    + (if c.patientData.isSome then 1 else 0)

/-! ## Front end: the dashboard page (`Pages/Dashboard/Dashboard.jsx`) -/

/-- The state of the page and of the consultation card mounted in its default view;
`StatsDashboard` passes `setConsultationActive` to the card as `onStart`. -/
structure Dashboard where
  collapsed : Bool := false
  consultationActive : Bool := false
  showPatientRecords : Bool := false
  card : Card := {}
  deriving DecidableEq

/-- Whether the page renders `PatientRecordCard`. -/
def Dashboard.showsPatientList (d : Dashboard) : Bool :=
  if d.showPatientRecords then true else !d.consultationActive

/-- One card event in the default view of the page: a call of `onStart` sets
`consultationActive`. Outside the default view the card is not mounted. -/
def Dashboard.step (d : Dashboard) (e : CardEvent) : Dashboard :=
  if d.showPatientRecords then d
  else
    match d.card.step e with
    | (c, some active) => { d with card := c, consultationActive := active }
    | (c, none) => { d with card := c }

/-- The page after a sequence of card events. -/
def Dashboard.run (d : Dashboard) : List CardEvent → Dashboard
  | [] => d
  | e :: es => Dashboard.run (d.step e) es

/-- Whether the card is in progress: recording or processing. -/
def Card.inProgress (c : Card) : Bool := c.isRecording || c.isProcessing

/-! ## Front end: string methods used by the components -/

/-- The code points `String.prototype.trim` removes: white space and line terminators. -/
def isWhiteSpace (c : Char) : Bool :=
  [0x09, 0x0A, 0x0B, 0x0C, 0x0D, 0x20, 0xA0, 0x1680, 0x2000, 0x2001, 0x2002, 0x2003, 0x2004,
    0x2005, 0x2006, 0x2007, 0x2008, 0x2009, 0x200A, 0x2028, 0x2029, 0x202F, 0x205F, 0x3000,
    0xFEFF].contains c.toNat

/-- The method `String.prototype.trim`. -/
def trim (s : String) : String :=
  String.mk ((s.data.dropWhile isWhiteSpace).reverse.dropWhile isWhiteSpace).reverse

/-- Splitting a character sequence at every occurrence of `sep`; the result has one
piece more than there are separators. -/
def splitChars (sep : Char) : List Char → List (List Char)
  | [] => [[]]
  | c :: cs =>
      if c = sep then [] :: splitChars sep cs
      else
        match splitChars sep cs with
        | [] => [[c]]
        | piece :: pieces => (c :: piece) :: pieces

/-- The method `String.prototype.split` with a one-character separator. -/
def split (s : String) (sep : Char) : List String :=
  (splitChars sep s.data).map String.mk

/-- The method `String.prototype.padStart`: a string shorter than `targetLength` is
filled on the left with repetitions of `padString`, cut to the missing length. -/
def padStart (s : String) (targetLength : Nat) (padString : String) : String :=
  if s.length < targetLength ∧ padString ≠ "" then
    String.mk (((List.replicate (targetLength - s.length) padString.data).flatten.take
      (targetLength - s.length)) ++ s.data)
  else s

/-! ## Front end: the dashboard header (`Dashboard/DashBoardHeader/DashboardHeader.jsx`) -/

/-- The values `getInitials` can return: a string, `undefined` when an empty string is
indexed, and `NaN`, the sum of two `undefined`. -/
inductive JsText where
  | text (s : String)
  | undefined
  | notANumber
  deriving DecidableEq

/-- The conversion to string the operator `+` applies to an operand. -/
def JsText.toText : JsText → String
  | JsText.text s => s
  | JsText.undefined => "undefined"
  | JsText.notANumber => "NaN"

/-- The index expression `s[0]` on a string: its first character, `undefined` when the
string is empty. -/
def firstChar (s : String) : JsText :=
  match s.data with
  | [] => JsText.undefined
  | c :: _ => JsText.text (String.singleton c)

/-- The operator `+` on these values: concatenation as soon as one operand is a string,
`NaN` otherwise. -/
def JsText.plus : JsText → JsText → JsText
  | JsText.text a, b => JsText.text (a ++ b.toText)
  | a, JsText.text b => JsText.text (a.toText ++ b)
  | _, _ => JsText.notANumber

/-- The function `getInitials(name)` for a string `name`. The first case of the `match`
does not occur: `split` returns at least one part. -/
def getInitials (name : String) : JsText :=
  if name = "" then JsText.text "U"
  else
    match split (trim name) ' ' with
    | [] => JsText.undefined
    | [p0] => firstChar p0
    | p0 :: p1 :: _ => (firstChar p0).plus (firstChar p1)

/-- The operand `x || ""` for an optional string. -/
def orEmpty : Option String → String
  | some s => s
  | none => ""

/-- The avatar text: `getInitials` applied to the template string built from
`user?.firstName` and `user?.lastName`. -/
def avatarText (user : Option User) : JsText :=
  getInitials (orEmpty (user.bind fun u => u.firstName) ++ " "
    ++ orEmpty (user.bind fun u => u.lastName))

/-! ## Front end: sign-up (`Auth/SignUpPage/SignUpPage.jsx`) -/

/-- The values read from the sign-up form. -/
structure SignupForm where
  role : String
  firstName : String
  lastName : String
  email : String
  password : String
  rePassword : String
  deriving DecidableEq

/-- How the awaited `axios.post` to `/api/auth/signup` ends. -/
inductive SignupOutcome where
  | success
  | failure (message : Option String)
  deriving DecidableEq

/-- What one call of `handleSignup` does: the bodies posted to `/api/auth/signup`, each
the list of its properties, the alerts shown and the navigations made. -/
structure SignupEffect where
  requests : List (List (String × String)) := []
  alerts : List (String × String × String) := []
  navigated : List String := []
  deriving DecidableEq

/-- The function `handleSignup`. -/
def handleSignup (form : SignupForm) (outcome : SignupOutcome) : SignupEffect :=
  if form.password ≠ form.rePassword then
    { alerts := [("Error", "Passwords do not match!", "error")] }
  else
    match outcome with
    | SignupOutcome.success =>
        { requests := [[("role", form.role), ("firstName", form.firstName),
            ("lastName", form.lastName), ("email", form.email),
            ("password", form.password)]]
          alerts := [("Success", "Account created successfully!", "success")]
          navigated := ["/signin"] }
    | SignupOutcome.failure message =>
        { requests := [[("role", form.role), ("firstName", form.firstName),
            ("lastName", form.lastName), ("email", form.email),
            ("password", form.password)]]
          alerts :=
            [("Error",
              (match message with
                | some m => if m = "" then "Signup failed" else m
                | none => "Signup failed"),
              "error")] }

/-! ## Front end: the Name and Symptoms inputs of the edit view -/

/-- The updater the `onChange` of the Name input passes to `setPatient`; `value` is
`e.target.value`. -/
def nameOnChange (value : String) (prev : List (String × JsValue)) :
    List (String × JsValue) :=
  setProp prev "patient"
    (JsValue.object
      (setProp (spread (getProp prev "patient")) "name"
        (JsValue.object [("given", JsValue.array [JsValue.string value])])))

/-- The updater the `onChange` of the Symptoms input passes to `setPatient`; `value` is
`e.target.value`. -/
def symptomsOnChange (value : String) (prev : List (String × JsValue)) :
    List (String × JsValue) :=
  setProp prev "entities"
    (JsValue.array
      (((split value ',').filter fun sym => decide (trim sym ≠ "")).map fun sym =>
        JsValue.object
          [("type", JsValue.string "Symptom"), ("entity", JsValue.string (trim sym))]))

/-- A `patient` state with a full name, a gender and entities of two types. -/
def namedState : List (String × JsValue) :=
  [("patientId", JsValue.string "P1001"),
   ("patient", JsValue.object
      [("name", JsValue.object
          [("family", JsValue.string "Smith"),
           ("given", JsValue.array [JsValue.string "John", JsValue.string "Paul"]),
           ("fullName", JsValue.string "John Paul Smith")]),
       ("gender", JsValue.string "male")]),
   ("entities", JsValue.array
      [JsValue.object [("entity", JsValue.string "Malaria"), ("type", JsValue.string "Disease")],
       JsValue.object [("entity", JsValue.string "Fever"), ("type", JsValue.string "Symptom")]])]

/-! ## Front end: the recording clock (`formatTime` in `Consultation.jsx`) -/

/-- The function `formatTime(s)` for a non-negative integer number of seconds. -/
def formatTime (s : Nat) : String :=
  toString (s / 60) ++ ":" ++ padStart (toString (s % 60)) 2 "0"

/-- The number a sequence of decimal digits denotes, most significant digit first. -/
def digitsValue (cs : List Char) : Nat :=
  cs.foldl (fun acc c => acc * 10 + (c.toNat - '0'.toNat)) 0

/-- Reading a formatted time back: the digits before the colon as minutes, those after
it as seconds, and minutes * 60 + seconds. -/
def readTime (t : String) : Nat :=
  digitsValue (t.data.takeWhile fun c => decide (c ≠ ':')) * 60
    + digitsValue ((t.data.dropWhile fun c => decide (c ≠ ':')).drop 1)

/-! ## Lemmas on validation -/

theorem dateIssue_of_dateOk (path : String) (d : Option DateInput) (h : dateOk d = true) :
    dateIssue path d = [] := by
  cases d with
  | none => rfl
  | some x => cases x <;> simp_all [dateOk, dateIssue]

theorem idIssue_of_idOk (v : Option IdInput) (h : idOk v = true) : idIssue v = [] := by
  cases v with
  | none => rfl
  | some x => cases x <;> simp_all [idOk, idIssue]

theorem conditionIssues_of_all (cs : List (Condition DateInput))
    (h : cs.all (fun c => dateOk c.onsetDateTime) = true) (i : Nat) :
    conditionIssues i cs = [] := by
  induction cs generalizing i with
  | nil => rfl
  | cons c cs ih =>
    simp only [List.all_cons, Bool.and_eq_true] at h
    simp [conditionIssues, dateIssue_of_dateOk _ _ h.1, ih h.2]

theorem medicationIssues_of_all (ms : List (Medication DateInput))
    (h : ms.all (fun m => dateOk m.authoredOn) = true) (i : Nat) :
    medicationIssues i ms = [] := by
  induction ms generalizing i with
  | nil => rfl
  | cons m ms ih =>
    simp only [List.all_cons, Bool.and_eq_true] at h
    simp [medicationIssues, dateIssue_of_dateOk _ _ h.1, ih h.2]

theorem requiredIssue_of_present (path s : String) (h : s ≠ "") :
    requiredIssue path (some s) = [] := by
  simp [requiredIssue, h]

theorem requiredIssue_of_missing (path : String) (v : Option String) (h : missing v = true) :
    requiredIssue path v ≠ [] := by
  cases v with
  | none => simp [requiredIssue]
  | some s =>
    have hs : s = "" := by simpa [missing] using h
    simp [requiredIssue, hs]

/-- A body that fits the schema leaves no cast error. -/
theorem castIssues_of_fitsSchema (body : EhrInput) (hfit : fitsSchema body = true) :
    castIssues body = [] := by
  simp only [fitsSchema, Bool.and_eq_true] at hfit
  obtain ⟨⟨⟨⟨⟨⟨⟨⟨⟨hid, hcf⟩, _⟩, hb⟩, hps⟩, hpe⟩, hc⟩, hm⟩, hf⟩, hca⟩ := hfit
  have hcf0 : body.castFailures = [] := by simpa using hcf
  simp [castIssues, idIssue_of_idOk _ hid, hcf0, dateIssue_of_dateOk _ _ hb,
    dateIssue_of_dateOk _ _ hps, dateIssue_of_dateOk _ _ hpe, conditionIssues_of_all _ hc,
    medicationIssues_of_all _ hm, dateIssue_of_dateOk _ _ hf, dateIssue_of_dateOk _ _ hca]

/-- A body with both required paths non-empty and fitting the schema passes validation. -/
theorem validate_new_of_valid (body : EhrInput) (oid : ObjectId) (now : Date)
    (p sm : String) (hp : body.patientId = some p) (hp0 : p ≠ "")
    (hs : body.summary = some sm) (hs0 : sm ≠ "") (hfit : fitsSchema body = true) :
    validate (EHR.new body oid now) = [] := by
  have hcast := castIssues_of_fitsSchema body hfit
  simp only [fitsSchema, Bool.and_eq_true] at hfit
  have hg := hfit.1.1.1.1.1.1.1.2
  have hgender : enumIssue "patient.gender" genderEnum body.patient.gender = [] := by
    cases hgv : body.patient.gender with
    | none => rfl
    | some g =>
      rw [hgv] at hg
      have hmem : g ∈ genderEnum := by simpa using hg
      simp [enumIssue, hmem]
  simp [validate, EHR.new, hcast, Patient.cast, hp, hs, requiredIssue_of_present _ _ hp0,
    requiredIssue_of_present _ _ hs0, hgender]

/-- A body lacking a required path fails validation. -/
theorem validate_new_of_missing (body : EhrInput) (oid : ObjectId) (now : Date)
    (h : missing body.patientId = true ∨ missing body.summary = true) :
    validate (EHR.new body oid now) ≠ [] := by
  intro hv
  simp only [validate, EHR.new, List.append_eq_nil] at hv
  rcases h with h | h
  · exact requiredIssue_of_missing _ _ h hv.1.1.2
  · exact requiredIssue_of_missing _ _ h hv.1.2

/-- The outcome of `save` on a document that passes validation and whose `_id` is not
stored yet, the driver accepting. -/
theorem save_of_valid (store : List EhrDoc) (d : Document) (h : validate d = [])
    (hnew : ∀ r ∈ store, r._id ≠ d.doc._id) :
    save store d none = Except.ok (store ++ [d.doc]) := by
  have hmem : d.doc._id ∉ store.map (fun r => r._id) := by
    intro hm
    obtain ⟨r, hr, hid⟩ := List.mem_map.mp hm
    exact hnew r hr hid
  simp only [save, h, hmem, if_false]

/-- The outcome of `save` on a document that fails validation, whatever the driver does. -/
theorem save_of_invalid (store : List EhrDoc) (d : Document) (fault : Option String)
    (h : validate d ≠ []) :
    save store d fault = Except.error (Message.validation (validate d)) := by
  unfold save
  cases hv : validate d with
  | nil => exact absurd hv h
  | cons i is => rfl

/-! ## Creation -/

/-- C1 (as stated, refuted): a body that supplies `_id` is stored under that `_id`, not
under one the store assigns; sent a second time it is answered 500, the `_id` being
stored already; and a body that supplies `createdAt: null` is stored with a `createdAt`
of `null`, not with a timestamp. -/
theorem createEHR_keeps_supplied_id :
    createEHR Server.init { now := 10 } suppliedIdBody
        = (⟨201, Body.messageEhr "EHR stored successfully" (EHR.new suppliedIdBody 0 10).doc⟩,
            { store := [(EHR.new suppliedIdBody 0 10).doc], oidCounter := 1 })
      ∧ (EHR.new suppliedIdBody 0 10).doc._id = 255
      ∧ (EHR.new suppliedIdBody 0 10).doc._id ≠ Server.init.oidCounter
      ∧ (createEHR (createEHR Server.init { now := 10 } suppliedIdBody).2 { now := 20 }
          suppliedIdBody).1 = ⟨500, Body.error (Message.duplicateKey 255)⟩
      ∧ (createEHR Server.init { now := 10 } nullCreatedAtBody).1
        = ⟨201, Body.messageEhr "EHR stored successfully"
            (EHR.new nullCreatedAtBody 0 10).doc⟩
      ∧ (EHR.new nullCreatedAtBody 0 10).doc.createdAt = ⊥ := by
  decide

/-- C1 (amended): a request body whose `patientId` and `summary` are non-empty strings and
whose other paths fit the schema is answered, when the store accepts the insert (the
driver does not fail and no stored document has the `_id` of the new one), with status
201 and the body `{message: "EHR stored successfully", ehr}`; `ehr` carries the supplied
`patientId` and `summary`, as `_id` the one the body supplies and, when it supplies
none, the identifier issued by the generator, and as `createdAt` what the body supplies,
`null` included, and, when it supplies none, the clock; the collection afterwards is the
previous collection followed by that document. -/
theorem createEHR_valid_body (srv : Server) (now : Date) (body : EhrInput) (p sm : String)
    (hp : body.patientId = some p) (hp0 : p ≠ "")
    (hs : body.summary = some sm) (hs0 : sm ≠ "") (hfit : fitsSchema body = true)
    (hnew : ∀ r ∈ srv.store, r._id ≠ (EHR.new body srv.oidCounter now).doc._id) :
    ∃ ehr : EhrDoc,
      createEHR srv { now := now, fault := none } body
          = (⟨201, Body.messageEhr "EHR stored successfully" ehr⟩,
              { store := srv.store ++ [ehr], oidCounter := srv.oidCounter + 1 })
        ∧ ehr.patientId = some p ∧ ehr.summary = some sm
        ∧ (∀ id : ObjectId, body._id = some (IdInput.castable id) → ehr._id = id)
        ∧ (body._id = none → ehr._id = srv.oidCounter)
        ∧ (∀ t : Date, body.createdAt = some (DateInput.castable t) →
            ehr.createdAt = (t : WithBot Date))
        ∧ (body.createdAt = some DateInput.null → ehr.createdAt = ⊥)
        ∧ (body.createdAt = none → ehr.createdAt = (now : WithBot Date)) := by
  refine ⟨(EHR.new body srv.oidCounter now).doc, ?_, ?_, ?_, ?_, ?_, ?_, ?_, ?_⟩
  · have hv := validate_new_of_valid body srv.oidCounter now p sm hp hp0 hs hs0 hfit
    simp [createEHR, save_of_valid _ _ hv hnew]
  · simpa [EHR.new] using hp
  · simpa [EHR.new] using hs
  · intro id h
    simp [EHR.new, h]
  · intro h
    simp [EHR.new, h]
  · intro t h
    simp [EHR.new, h]
  · intro h
    simp [EHR.new, h]
  · intro h
    simp [EHR.new, h]

theorem createEHR_valid_body_witness :
    ∃ ehr : EhrDoc,
      createEHR Server.init { now := 1700000000000, fault := none }
          { patientId := some "P1001", summary := some "Flu" }
          = (⟨201, Body.messageEhr "EHR stored successfully" ehr⟩,
              { store := Server.init.store ++ [ehr], oidCounter := Server.init.oidCounter + 1 })
        ∧ ehr.patientId = some "P1001" ∧ ehr.summary = some "Flu"
        ∧ ehr._id = Server.init.oidCounter
        ∧ ehr.createdAt = ((1700000000000 : Date) : WithBot Date) :=
  match createEHR_valid_body Server.init 1700000000000
    { patientId := some "P1001", summary := some "Flu" } "P1001" "Flu" rfl (by decide) rfl
    (by decide) (by decide) (by simp [Server.init]) with
  | ⟨ehr, h1, h2, h3, _, h5, _, _, h8⟩ => ⟨ehr, h1, h2, h3, h5 rfl, h8 rfl⟩

/-- C2: a request body in which `patientId` or `summary` is absent or the empty string is
answered with status 500 and a body `{error: m}`, never with 201, whatever the driver
would do, and the collection is left as it was. -/
theorem createEHR_missing_required (srv : Server) (env : Env) (body : EhrInput)
    (h : missing body.patientId = true ∨ missing body.summary = true) :
    (∃ m : Message, (createEHR srv env body).1 = ⟨500, Body.error m⟩)
      ∧ (createEHR srv env body).1.status ≠ 201
      ∧ (createEHR srv env body).2.store = srv.store := by
  have hv := validate_new_of_missing body srv.oidCounter env.now h
  have hsave := save_of_invalid srv.store _ env.fault hv
  simp [createEHR, hsave]

theorem createEHR_missing_required_witness :
    (∃ m : Message,
        (createEHR Server.init { now := 5 } { patientId := some "P1001" }).1
          = ⟨500, Body.error m⟩)
      ∧ (createEHR Server.init { now := 5 } { patientId := some "P1001" }).1.status ≠ 201
      ∧ (createEHR Server.init { now := 5 } { patientId := some "P1001" }).2.store
          = Server.init.store :=
  createEHR_missing_required Server.init { now := 5 } { patientId := some "P1001" }
    (Or.inr rfl)

/-! ## Listing -/

theorem insertByCreatedAtDesc_perm (r : EhrDoc) (l : List EhrDoc) :
    (insertByCreatedAtDesc r l).Perm (r :: l) := by
  induction l with
  | nil => exact List.Perm.refl _
  | cons x xs ih =>
    unfold insertByCreatedAtDesc
    split
    · exact List.Perm.refl _
    · exact (List.Perm.cons x ih).trans (List.Perm.swap r x xs)

theorem sortByCreatedAtDesc_perm (l : List EhrDoc) : (sortByCreatedAtDesc l).Perm l := by
  induction l with
  | nil => exact List.Perm.refl _
  | cons x xs ih =>
    exact (insertByCreatedAtDesc_perm x _).trans (List.Perm.cons x ih)

theorem insertByCreatedAtDesc_pairwise (r : EhrDoc) (l : List EhrDoc)
    (h : l.Pairwise (fun a b => b.createdAt ≤ a.createdAt)) :
    (insertByCreatedAtDesc r l).Pairwise (fun a b => b.createdAt ≤ a.createdAt) := by
  induction l with
  | nil => simp [insertByCreatedAtDesc]
  | cons x xs ih =>
    unfold insertByCreatedAtDesc
    rw [List.pairwise_cons] at h
    split
    · rename_i hle
      refine List.pairwise_cons.mpr ⟨?_, List.pairwise_cons.mpr h⟩
      intro b hb
      rcases List.mem_cons.mp hb with rfl | hb
      · exact hle
      · exact le_trans (h.1 b hb) hle
    · rename_i hnle
      refine List.pairwise_cons.mpr ⟨?_, ih h.2⟩
      intro b hb
      rcases List.mem_cons.mp ((insertByCreatedAtDesc_perm r xs).subset hb) with rfl | hb
      · exact le_of_lt (not_le.mp hnle)
      · exact h.1 b hb

theorem sortByCreatedAtDesc_pairwise (l : List EhrDoc) :
    (sortByCreatedAtDesc l).Pairwise (fun a b => b.createdAt ≤ a.createdAt) := by
  induction l with
  | nil => simp [sortByCreatedAtDesc]
  | cons x xs ih => exact insertByCreatedAtDesc_pairwise x _ ih

/-- A 201 answer of `createEHR` means the document of the answer was appended, and its
`_id` was not stored before. -/
theorem createEHR_created (srv srv1 : Server) (env : Env) (body : EhrInput) (msg : String)
    (ehr : EhrDoc) (h : createEHR srv env body = (⟨201, Body.messageEhr msg ehr⟩, srv1)) :
    srv1.store = srv.store ++ [ehr] ∧ ehr = (EHR.new body srv.oidCounter env.now).doc
      ∧ srv1.oidCounter = srv.oidCounter + 1 ∧ env.fault = none
      ∧ validate (EHR.new body srv.oidCounter env.now) = []
      ∧ ∀ r ∈ srv.store, r._id ≠ ehr._id := by
  cases hv : validate (EHR.new body srv.oidCounter env.now) with
  | cons i is =>
    have hs := save_of_invalid srv.store _ env.fault (by rw [hv]; simp)
    simp [createEHR, hs] at h
  | nil =>
    cases hf : env.fault with
    | some m => simp [createEHR, save, hv, hf] at h
    | none =>
      by_cases hdup : (EHR.new body srv.oidCounter env.now).doc._id
          ∈ srv.store.map (fun r => r._id)
      · simp [createEHR, save, hv, hf, hdup] at h
      · simp only [createEHR, save, hv, hf, hdup, if_false, Prod.mk.injEq,
          Response.mk.injEq, Body.messageEhr.injEq, true_and] at h
        obtain ⟨⟨_, he⟩, hs⟩ := h
        subst hs
        subst he
        refine ⟨rfl, rfl, rfl, rfl, rfl, ?_⟩
        intro r hr hid
        exact hdup (List.mem_map.mpr ⟨r, hr, hid⟩)

/-- C3: the sequence `getAllEHRs` answers with is ordered by `createdAt` descending: each
record is at least as new as the one that follows it. In particular, after A and then B
are created in an empty collection, B with the later `createdAt`, the answer is `[B, A]`. -/
theorem getAllEHRs_newest_first (srv : Server) (now : Date) :
    (∃ rs : List EhrDoc,
        (getAllEHRs srv { now := now, fault := none }).1 = ⟨200, Body.records rs⟩
          ∧ ∀ (i : Nat) (h : i + 1 < rs.length),
              (rs.get ⟨i + 1, h⟩).createdAt ≤ (rs.get ⟨i, Nat.lt_of_succ_lt h⟩).createdAt)
      ∧ ∀ (envA envB : Env) (a b : EhrInput) (msgA msgB : String) (A B : EhrDoc)
          (srvA srvB : Server),
          createEHR Server.init envA a = (⟨201, Body.messageEhr msgA A⟩, srvA) →
          createEHR srvA envB b = (⟨201, Body.messageEhr msgB B⟩, srvB) →
          A.createdAt < B.createdAt →
          (getAllEHRs srvB { now := now, fault := none }).1 = ⟨200, Body.records [B, A]⟩ := by
  constructor
  · refine ⟨sortByCreatedAtDesc srv.store, by simp [getAllEHRs, EHR.findSorted], ?_⟩
    intro i h
    have hp := sortByCreatedAtDesc_pairwise srv.store
    rw [List.pairwise_iff_get] at hp
    exact hp ⟨i, Nat.lt_of_succ_lt h⟩ ⟨i + 1, h⟩ (by simp)
  · intro envA envB a b msgA msgB A B srvA srvB hA hB hlt
    have h1 := (createEHR_created _ _ _ _ _ _ hA).1
    have h2 := (createEHR_created _ _ _ _ _ _ hB).1
    rw [h1] at h2
    simp only [Server.init, List.nil_append, List.cons_append] at h2
    simp [getAllEHRs, EHR.findSorted, h2, sortByCreatedAtDesc, insertByCreatedAtDesc,
      not_le.mpr hlt]

theorem getAllEHRs_newest_first_witness :
    (getAllEHRs
        (createEHR (createEHR Server.init { now := 10 }
          { patientId := some "P1", summary := some "A" }).2 { now := 20 }
          { patientId := some "P2", summary := some "B" }).2 { now := 30, fault := none }).1
      = ⟨200, Body.records
          [(EHR.new { patientId := some "P2", summary := some "B" } 1 20).doc,
           (EHR.new { patientId := some "P1", summary := some "A" } 0 10).doc]⟩ :=
  (getAllEHRs_newest_first Server.init 30).2 { now := 10 } { now := 20 }
    { patientId := some "P1", summary := some "A" }
    { patientId := some "P2", summary := some "B" } "EHR stored successfully"
    "EHR stored successfully" _ _ _ _ rfl rfl (by decide)

/-- C4: when the read succeeds, `getAllEHRs` answers with status 200 and a permutation of
the whole collection: every stored document occurs in the answer as often as in the
collection, the lengths agree, and the empty collection gives the empty sequence. -/
theorem getAllEHRs_perm (srv : Server) (now : Date) :
    ∃ rs : List EhrDoc,
      getAllEHRs srv { now := now, fault := none } = (⟨200, Body.records rs⟩, srv)
        ∧ rs.Perm srv.store
        ∧ (∀ r : EhrDoc, rs.count r = srv.store.count r)
        ∧ rs.length = srv.store.length
        ∧ (getAllEHRs { store := [], oidCounter := srv.oidCounter }
              { now := now, fault := none }).1 = ⟨200, Body.records []⟩ := by
  have hp := sortByCreatedAtDesc_perm srv.store
  exact ⟨sortByCreatedAtDesc srv.store, by simp [getAllEHRs, EHR.findSorted], hp,
    fun r => hp.count_eq r, hp.length_eq, by simp [getAllEHRs, EHR.findSorted,
      sortByCreatedAtDesc]⟩

/-! ## Lookup by patient identifier -/

/-- The answer of `getEHRByPatient` when some stored document has the identifier: the
first such document in natural order. -/
theorem getEHRByPatient_of_find (srv : Server) (now : Date) (p : String) (r : EhrDoc)
    (h : srv.store.find? (fun d => decide (d.patientId = some p)) = some r) :
    getEHRByPatient srv { now := now, fault := none } p = (⟨200, Body.record r⟩, srv) := by
  simp [getEHRByPatient, EHR.findOne, h]

/-- The answer of `getEHRByPatient` when no stored document has the identifier. -/
theorem getEHRByPatient_of_none (srv : Server) (now : Date) (p : String)
    (h : ∀ r ∈ srv.store, r.patientId ≠ some p) :
    getEHRByPatient srv { now := now, fault := none } p
      = (⟨404, Body.message "No record found"⟩, srv) := by
  have hf : srv.store.find? (fun d => decide (d.patientId = some p)) = none := by
    rw [List.find?_eq_none]
    intro x hx
    simpa using h x hx
  simp [getEHRByPatient, EHR.findOne, hf]

/-- C5: with the read succeeding, `getEHRByPatient` answers 200 with a stored document
whose `patientId` is exactly the path parameter when the collection holds such a
document, and 404 with the message "No record found" when it holds none; so the status
is 200 if and only if a stored document has that `patientId`. In particular, after one
document is created in the empty collection, its own `patientId` finds it and every
other string gets 404. -/
theorem getEHRByPatient_found_iff (srv : Server) (now : Date) (p : String) :
    ((∃ r ∈ srv.store, r.patientId = some p) →
        ∃ r : EhrDoc, (getEHRByPatient srv { now := now, fault := none } p).1
            = ⟨200, Body.record r⟩ ∧ r ∈ srv.store ∧ r.patientId = some p)
      ∧ ((¬ ∃ r ∈ srv.store, r.patientId = some p) →
          (getEHRByPatient srv { now := now, fault := none } p).1
            = ⟨404, Body.message "No record found"⟩)
      ∧ ((getEHRByPatient srv { now := now, fault := none } p).1.status = 200
          ↔ ∃ r ∈ srv.store, r.patientId = some p)
      ∧ ∀ (env : Env) (body : EhrInput) (msg : String) (A : EhrDoc) (srvA : Server),
          createEHR Server.init env body = (⟨201, Body.messageEhr msg A⟩, srvA) →
          body.patientId = some p →
          (getEHRByPatient srvA { now := now, fault := none } p).1 = ⟨200, Body.record A⟩
            ∧ ∀ q : String, q ≠ p →
                (getEHRByPatient srvA { now := now, fault := none } q).1
                  = ⟨404, Body.message "No record found"⟩ := by
  have hfound : (∃ r ∈ srv.store, r.patientId = some p) →
      ∃ r : EhrDoc, (getEHRByPatient srv { now := now, fault := none } p).1
        = ⟨200, Body.record r⟩ ∧ r ∈ srv.store ∧ r.patientId = some p := by
    rintro ⟨r, hr, hrp⟩
    cases hf : srv.store.find? (fun d => decide (d.patientId = some p)) with
    | none =>
      rw [List.find?_eq_none] at hf
      exact absurd (by simpa using hrp) (hf r hr)
    | some r0 =>
      refine ⟨r0, by rw [getEHRByPatient_of_find srv now p r0 hf],
        List.mem_of_find?_eq_some hf, ?_⟩
      simpa using List.find?_some hf
  have hnone : (¬ ∃ r ∈ srv.store, r.patientId = some p) →
      (getEHRByPatient srv { now := now, fault := none } p).1
        = ⟨404, Body.message "No record found"⟩ := by
    intro hn
    rw [getEHRByPatient_of_none srv now p (fun r hr hrp => hn ⟨r, hr, hrp⟩)]
  refine ⟨hfound, hnone, ?_, ?_⟩
  · constructor
    · intro hst
      by_contra hn
      rw [hnone hn] at hst
      exact absurd hst (by decide)
    · intro hex
      obtain ⟨r, hr, _, _⟩ := hfound hex
      rw [hr]
  · intro env body msg A srvA hA hp
    obtain ⟨hstore, hAeq, _, _, _⟩ := createEHR_created _ _ _ _ _ _ hA
    have hAp : A.patientId = some p := by rw [hAeq]; simpa [EHR.new] using hp
    simp only [Server.init, List.nil_append] at hstore
    constructor
    · rw [getEHRByPatient_of_find srvA now p A (by simp [hstore, hAp])]
    · intro q hq
      rw [getEHRByPatient_of_none srvA now q]
      intro r hr
      rw [hstore, List.mem_singleton] at hr
      rw [hr, hAp]
      simpa using fun h => hq h.symm

theorem getEHRByPatient_found_iff_witness :
    (getEHRByPatient
        (createEHR Server.init { now := 10 }
          { patientId := some "P1001", summary := some "Flu" }).2
        { now := 20, fault := none } "P1001").1
        = ⟨200, Body.record
            (EHR.new { patientId := some "P1001", summary := some "Flu" } 0 10).doc⟩
      ∧ (getEHRByPatient
          (createEHR Server.init { now := 10 }
            { patientId := some "P1001", summary := some "Flu" }).2
          { now := 20, fault := none } "UNKNOWN").1
        = ⟨404, Body.message "No record found"⟩ :=
  have h := (getEHRByPatient_found_iff Server.init 20 "P1001").2.2.2 { now := 10 }
    { patientId := some "P1001", summary := some "Flu" } "EHR stored successfully" _ _ rfl rfl
  ⟨h.1, h.2 "UNKNOWN" (by decide)⟩

/-! ## Lookup by internal identifier, as the detail and edit views issue it -/

/-- C6: the request the detail and edit views send for a stored document, `GET
/api/ehr/{_id}`, is routed to `getEHRByPatient`, which compares the path parameter with
`patientId`: for the single document created with `patientId` "P1001", whose `_id` is the
first identifier issued, the request by `_id` is answered 404 "No record found". -/
theorem get_by_internal_id_not_found :
    (createEHR Server.init { now := 10 }
        { patientId := some "P1001", summary := some "Flu" }).2.store.map (fun r => r._id)
        = [0]
      ∧ router ⟨Method.GET, [ObjectId.toHexString 0], {}⟩
          = some (Call.getEHRByPatient "000000000000000000000000")
      ∧ handle
          (createEHR Server.init { now := 10 }
            { patientId := some "P1001", summary := some "Flu" }).2
          { now := 20 } ⟨Method.GET, [ObjectId.toHexString 0], {}⟩
        = some (⟨404, Body.message "No record found"⟩,
            (createEHR Server.init { now := 10 }
              { patientId := some "P1001", summary := some "Flu" }).2) := by
  decide

/-! ## Round trip of `medications` -/

theorem dateOk_of_medicationIssues (ms : List (Medication DateInput)) (i : Nat)
    (h : medicationIssues i ms = []) : ∀ m ∈ ms, dateOk m.authoredOn = true := by
  induction ms generalizing i with
  | nil => intro m hm; cases hm
  | cons x xs ih =>
    simp only [medicationIssues, List.append_eq_nil] at h
    intro m hm
    rcases List.mem_cons.mp hm with rfl | hm
    · cases hd : m.authoredOn with
      | none => rfl
      | some d =>
        cases d with
        | castable t => rfl
        | malformed raw => rw [hd] at h; simp [dateIssue] at h
        | null => rfl
    · exact ih (i + 1) h.2 m hm

theorem medicationIssues_of_validate (body : EhrInput) (oid : ObjectId) (now : Date)
    (h : validate (EHR.new body oid now) = []) : medicationIssues 0 body.medications = [] := by
  simp only [validate, EHR.new, castIssues, List.append_eq_nil] at h
  exact h.1.1.1.1.1.2

/-- C7: the document created with a `medications` sequence of two entries is stored with
both entries, in their order and with their fields. The fetch by its id, the request
`GET /api/ehr/{_id}` of the detail and edit views, does not return it: the path parameter
is compared with `patientId` and the answer is 404 "No record found". -/
theorem medications_fetch_by_id_not_found :
    (createEHR Server.init { now := 10 } twoMedsBody).2.store
        = [(EHR.new twoMedsBody 0 10).doc]
      ∧ (EHR.new twoMedsBody 0 10).doc._id = 0
      ∧ (EHR.new twoMedsBody 0 10).doc.medications
        = [{ medId := some "M1", name := some "Paracetamol", dosage := some "500mg",
             authoredOn := some 1000 },
           { medId := some "M2", name := some "Ibuprofen", route := some "oral" }]
      ∧ handle (createEHR Server.init { now := 10 } twoMedsBody).2 { now := 20 }
          ⟨Method.GET, [ObjectId.toHexString 0], {}⟩
        = some (⟨404, Body.message "No record found"⟩,
            (createEHR Server.init { now := 10 } twoMedsBody).2) := by
  decide

/-- What the store keeps of `medications`: a document created through `createEHR` with
medications `m1, .., mn`, in a collection holding no document with the same `patientId`,
is the one `getEHRByPatient` returns for that `patientId`, and its `medications` sequence
has the same length and, at each position, the same `medId`, `name`, `status`, `dosage`,
`frequency` and `route`, and as `authoredOn` the date the supplied value casts to. -/
theorem medications_round_trip (srv srv1 : Server) (env : Env) (now : Date)
    (body : EhrInput) (p msg : String) (ehr : EhrDoc)
    (hc : createEHR srv env body = (⟨201, Body.messageEhr msg ehr⟩, srv1))
    (hp : body.patientId = some p)
    (hfresh : ∀ r ∈ srv.store, r.patientId ≠ some p) :
    ∃ r : EhrDoc,
      getEHRByPatient srv1 { now := now, fault := none } p = (⟨200, Body.record r⟩, srv1)
        ∧ r = ehr
        ∧ r.medications.length = body.medications.length
        ∧ ∀ (i : Nat) (h1 : i < body.medications.length) (h2 : i < r.medications.length),
            (r.medications.get ⟨i, h2⟩).medId = (body.medications.get ⟨i, h1⟩).medId
              ∧ (r.medications.get ⟨i, h2⟩).name = (body.medications.get ⟨i, h1⟩).name
              ∧ (r.medications.get ⟨i, h2⟩).status = (body.medications.get ⟨i, h1⟩).status
              ∧ (r.medications.get ⟨i, h2⟩).dosage = (body.medications.get ⟨i, h1⟩).dosage
              ∧ (r.medications.get ⟨i, h2⟩).frequency
                  = (body.medications.get ⟨i, h1⟩).frequency
              ∧ (r.medications.get ⟨i, h2⟩).route = (body.medications.get ⟨i, h1⟩).route
              ∧ (r.medications.get ⟨i, h2⟩).authoredOn
                  = castDate (body.medications.get ⟨i, h1⟩).authoredOn
              ∧ dateOk (body.medications.get ⟨i, h1⟩).authoredOn = true := by
  obtain ⟨hstore, hdoc, _, _, hv, _⟩ := createEHR_created _ _ _ _ _ _ hc
  have hmeds : ehr.medications = body.medications.map Medication.cast := by
    rw [hdoc]; rfl
  have hep : ehr.patientId = some p := by rw [hdoc]; simpa [EHR.new] using hp
  have hnone : srv.store.find? (fun d => decide (d.patientId = some p)) = none := by
    rw [List.find?_eq_none]
    intro x hx
    simpa using hfresh x hx
  have hfind : srv1.store.find? (fun d => decide (d.patientId = some p)) = some ehr := by
    rw [hstore, List.find?_append, hnone]
    simp [hep]
  refine ⟨ehr, getEHRByPatient_of_find srv1 now p ehr hfind, rfl, by simp [hmeds], ?_⟩
  intro i h1 h2
  have hok := dateOk_of_medicationIssues _ 0 (medicationIssues_of_validate _ _ _ hv)
    (body.medications.get ⟨i, h1⟩) (List.get_mem _ _ _)
  have hget : ehr.medications.get ⟨i, h2⟩ = (body.medications.get ⟨i, h1⟩).cast := by
    simp [hmeds]
  rw [hget]
  exact ⟨rfl, rfl, rfl, rfl, rfl, rfl, rfl, hok⟩

/-! ## Reads do not write -/

theorem getAllEHRs_state (srv : Server) (env : Env) : (getAllEHRs srv env).2 = srv := by
  unfold getAllEHRs
  split <;> rfl

theorem getEHRByPatient_state (srv : Server) (env : Env) (p : String) :
    (getEHRByPatient srv env p).2 = srv := by
  unfold getEHRByPatient
  split <;> rfl

/-- C8: `getAllEHRs` and `getEHRByPatient` leave the server state, hence the collection,
unchanged; so a second `getAllEHRs`, with the same driver outcome and with nothing or
only a `getEHRByPatient` in between, answers exactly as the first one did, whatever the
clock shows. -/
theorem reads_leave_store_unchanged (srv : Server) (env env1 env2 : Env) (p : String) :
    (getAllEHRs srv env).2 = srv
      ∧ (getEHRByPatient srv env p).2 = srv
      ∧ (getAllEHRs (getAllEHRs srv env).2 { now := env1.now, fault := env.fault }).1
          = (getAllEHRs srv env).1
      ∧ (getAllEHRs (getEHRByPatient (getAllEHRs srv env).2 env2 p).2
            { now := env1.now, fault := env.fault }).1
          = (getAllEHRs srv env).1 := by
  refine ⟨getAllEHRs_state srv env, getEHRByPatient_state srv env p, ?_, ?_⟩
  · rw [getAllEHRs_state]
    simp [getAllEHRs]
  · rw [getEHRByPatient_state, getAllEHRs_state]
    simp [getAllEHRs]

/-! ## Stored documents are never rewritten -/

/-- The state after `createEHR`: the collection gained the new document, whose `_id` was
not stored before, or is unchanged, and the generator advanced. -/
theorem createEHR_state (srv : Server) (env : Env) (body : EhrInput) :
    ((createEHR srv env body).2
        = { store := srv.store ++ [(EHR.new body srv.oidCounter env.now).doc],
            oidCounter := srv.oidCounter + 1 }
        ∧ (EHR.new body srv.oidCounter env.now).doc._id ∉ srv.store.map (fun r => r._id))
      ∨ (createEHR srv env body).2
        = { store := srv.store, oidCounter := srv.oidCounter + 1 } := by
  cases hv : validate (EHR.new body srv.oidCounter env.now) with
  | nil =>
    cases hf : env.fault with
    | none =>
      by_cases hdup : (EHR.new body srv.oidCounter env.now).doc._id
          ∈ srv.store.map (fun r => r._id)
      · exact Or.inr (by simp [createEHR, save, hv, hf, hdup])
      · exact Or.inl ⟨by simp only [createEHR, save, hv, hf, hdup, if_false], hdup⟩
    | some m => exact Or.inr (by simp [createEHR, save, hv, hf])
  | cons i is => exact Or.inr (by simp [createEHR, save, hv])

/-- Every routed handler leaves the previous collection as a prefix of the new one. -/
theorem run_store_prefix (srv : Server) (env : Env) (c : Call) :
    srv.store <+: (c.run srv env).2.store := by
  cases c with
  | createEHR body =>
    rcases createEHR_state srv env body with ⟨h, _⟩ | h
    · simp only [Call.run, h]
      exact List.prefix_append _ _
    · simp only [Call.run, h]
      exact List.prefix_refl _
  | getAllEHRs =>
    simp only [Call.run, getAllEHRs_state]
    exact List.prefix_refl _
  | getEHRByPatient p =>
    simp only [Call.run, getEHRByPatient_state]
    exact List.prefix_refl _

/-- Every routed handler keeps the identifiers of the collection distinct. -/
theorem run_preserves_WF (srv : Server) (env : Env) (c : Call) (h : srv.WF) :
    (c.run srv env).2.WF := by
  cases c with
  | createEHR body =>
    rcases createEHR_state srv env body with ⟨hs, hnew⟩ | hs
    · simp only [Call.run, hs, Server.WF]
      rw [List.map_append, List.nodup_append]
      refine ⟨h, by simp, ?_⟩
      intro a ha hb
      have hb1 : a = (EHR.new body srv.oidCounter env.now).doc._id := by simpa using hb
      rw [hb1] at ha
      exact hnew ha
    · simp only [Call.run, hs, Server.WF]
      exact h
  | getAllEHRs => simpa only [Call.run, getAllEHRs_state] using h
  | getEHRByPatient p => simpa only [Call.run, getEHRByPatient_state] using h

theorem eq_of_id_eq_of_nodup (l : List EhrDoc) (h : (l.map (fun r => r._id)).Nodup)
    (a b : EhrDoc) (ha : a ∈ l) (hb : b ∈ l) (hid : a._id = b._id) : a = b :=
  List.inj_on_of_nodup_map h ha hb hid

/-- C9: under each routed handler (`createEHR`, `getAllEHRs`, `getEHRByPatient`) the
collection before the request is a prefix of the collection after it, so every document
present before is present afterwards, at the same position, with the same `_id` and
`createdAt`; and in a collection whose identifiers are distinct, they stay distinct and
the document found afterwards under an existing identifier is the document that was
there before. -/
theorem stored_records_preserved (srv : Server) (env : Env) (c : Call) :
    srv.store <+: (c.run srv env).2.store
      ∧ (∀ r ∈ srv.store, r ∈ (c.run srv env).2.store)
      ∧ (∀ (i : Nat) (h : i < srv.store.length),
          ∃ h1 : i < (c.run srv env).2.store.length,
            ((c.run srv env).2.store.get ⟨i, h1⟩)._id = (srv.store.get ⟨i, h⟩)._id
              ∧ ((c.run srv env).2.store.get ⟨i, h1⟩).createdAt
                  = (srv.store.get ⟨i, h⟩).createdAt)
      ∧ (srv.WF →
          (c.run srv env).2.WF
            ∧ ∀ r ∈ srv.store, ∀ r1 ∈ (c.run srv env).2.store,
                r1._id = r._id → r1 = r) := by
  have hpre := run_store_prefix srv env c
  refine ⟨hpre, fun r hr => hpre.subset hr, ?_, ?_⟩
  · intro i h
    obtain ⟨t, ht⟩ := hpre
    have h1 : i < (c.run srv env).2.store.length := by
      rw [← ht, List.length_append]; omega
    refine ⟨h1, ?_⟩
    have hget : (c.run srv env).2.store.get ⟨i, h1⟩ = srv.store.get ⟨i, h⟩ := by
      simp only [List.get_eq_getElem]
      simp only [← ht]
      exact List.getElem_append_left h
    rw [hget]
    exact ⟨rfl, rfl⟩
  · intro hwf
    have hwf1 := run_preserves_WF srv env c hwf
    refine ⟨hwf1, ?_⟩
    intro r hr r1 hr1 hid
    exact eq_of_id_eq_of_nodup _ hwf1 r1 r hr1 (hpre.subset hr) hid

theorem stored_records_preserved_witness :
    (createEHR Server.init { now := 10 } fluBody).2.WF
      ∧ (Call.run (createEHR Server.init { now := 10 } fluBody).2 { now := 20 }
          (Call.createEHR twoMedsBody)).2.WF
      ∧ ∀ r ∈ (createEHR Server.init { now := 10 } fluBody).2.store,
          ∀ r1 ∈ (Call.run (createEHR Server.init { now := 10 } fluBody).2 { now := 20 }
              (Call.createEHR twoMedsBody)).2.store,
            r1._id = r._id → r1 = r :=
  have hwf : (createEHR Server.init { now := 10 } fluBody).2.WF := by
    unfold Server.WF
    decide
  ⟨hwf, (stored_records_preserved (createEHR Server.init { now := 10 } fluBody).2
    { now := 20 } (Call.createEHR twoMedsBody)).2.2.2 hwf⟩

/-! ## Failure answers -/

theorem createEHR_status (srv : Server) (env : Env) (body : EhrInput) :
    (createEHR srv env body).1.status = 201 ∨ (createEHR srv env body).1.status = 500 := by
  cases h : save srv.store (EHR.new body srv.oidCounter env.now) env.fault with
  | ok store => exact Or.inl (by simp [createEHR, h])
  | error m => exact Or.inr (by simp [createEHR, h])

theorem getAllEHRs_status (srv : Server) (env : Env) :
    (getAllEHRs srv env).1.status = 200 ∨ (getAllEHRs srv env).1.status = 500 := by
  unfold getAllEHRs
  split
  · exact Or.inl rfl
  · exact Or.inr rfl

/-- The three answers of `getEHRByPatient`, by driver outcome and query result. -/
theorem getEHRByPatient_cases (srv : Server) (env : Env) (p : String) :
    (env.fault = none ∧ (∀ r ∈ srv.store, r.patientId ≠ some p)
        ∧ (getEHRByPatient srv env p).1 = ⟨404, Body.message "No record found"⟩)
      ∨ (env.fault = none ∧ ∃ r ∈ srv.store, r.patientId = some p
          ∧ (getEHRByPatient srv env p).1 = ⟨200, Body.record r⟩)
      ∨ ∃ m : String, env.fault = some m
          ∧ (getEHRByPatient srv env p).1 = ⟨500, Body.error (Message.driver m)⟩ := by
  cases hf : env.fault with
  | some m => exact Or.inr (Or.inr ⟨m, rfl, by simp [getEHRByPatient, EHR.findOne, hf]⟩)
  | none =>
    cases hq : srv.store.find? (fun d => decide (d.patientId = some p)) with
    | none =>
      refine Or.inl ⟨rfl, ?_, by simp [getEHRByPatient, EHR.findOne, hf, hq]⟩
      intro r hr
      simpa using (List.find?_eq_none.mp hq) r hr
    | some r =>
      refine Or.inr (Or.inl ⟨rfl, r, List.mem_of_find?_eq_some hq, ?_,
        by simp [getEHRByPatient, EHR.findOne, hf, hq]⟩)
      simpa using List.find?_some hq

/-- C10: each routed handler turns a failure of its awaited model call with message `m`
into the answer 500 `{error: m}` (the handlers are total functions: nothing escapes the
`catch`); the only other failure answer is the 404 of `getEHRByPatient` when the read
succeeds and no document matches; every answer has status 200, 201, 404 or 500. -/
theorem handlers_answer_failures (srv : Server) (env : Env) :
    (∀ (body : EhrInput) (m : Message),
        save srv.store (EHR.new body srv.oidCounter env.now) env.fault = Except.error m →
        (createEHR srv env body).1 = ⟨500, Body.error m⟩)
      ∧ (∀ m : Message, EHR.findSorted srv.store env.fault = Except.error m →
          (getAllEHRs srv env).1 = ⟨500, Body.error m⟩)
      ∧ (∀ (p : String) (m : Message), EHR.findOne srv.store p env.fault = Except.error m →
          (getEHRByPatient srv env p).1 = ⟨500, Body.error m⟩)
      ∧ (∀ m : String, env.fault = some m →
          (getAllEHRs srv env).1 = ⟨500, Body.error (Message.driver m)⟩
            ∧ (∀ p : String,
                (getEHRByPatient srv env p).1 = ⟨500, Body.error (Message.driver m)⟩)
            ∧ ∀ body : EhrInput, validate (EHR.new body srv.oidCounter env.now) = [] →
                (createEHR srv env body).1 = ⟨500, Body.error (Message.driver m)⟩)
      ∧ (∀ c : Call, (c.run srv env).1.status = 200 ∨ (c.run srv env).1.status = 201
          ∨ (c.run srv env).1.status = 404 ∨ (c.run srv env).1.status = 500)
      ∧ ∀ c : Call, (c.run srv env).1.status = 404 ↔
          ∃ p : String, c = Call.getEHRByPatient p ∧ env.fault = none
            ∧ ∀ r ∈ srv.store, r.patientId ≠ some p := by
  refine ⟨?_, ?_, ?_, ?_, ?_, ?_⟩
  · intro body m h
    simp [createEHR, h]
  · intro m h
    simp [getAllEHRs, h]
  · intro p m h
    simp [getEHRByPatient, h]
  · intro m hf
    refine ⟨by simp [getAllEHRs, EHR.findSorted, hf],
      fun p => by simp [getEHRByPatient, EHR.findOne, hf], ?_⟩
    intro body hv
    simp [createEHR, save, hv, hf]
  · intro c
    cases c with
    | createEHR body =>
      rcases createEHR_status srv env body with h | h
      · exact Or.inr (Or.inl h)
      · exact Or.inr (Or.inr (Or.inr h))
    | getAllEHRs =>
      rcases getAllEHRs_status srv env with h | h
      · exact Or.inl h
      · exact Or.inr (Or.inr (Or.inr h))
    | getEHRByPatient p =>
      rcases getEHRByPatient_cases srv env p with ⟨_, _, h⟩ | ⟨_, r, _, _, h⟩ | ⟨m, _, h⟩
      · exact Or.inr (Or.inr (Or.inl (by simp only [Call.run, h])))
      · exact Or.inl (by simp only [Call.run, h])
      · exact Or.inr (Or.inr (Or.inr (by simp only [Call.run, h])))
  · intro c
    constructor
    · intro h
      cases c with
      | createEHR body =>
        rcases createEHR_status srv env body with h1 | h1 <;>
          · simp only [Call.run] at h
            rw [h1] at h
            exact absurd h (by decide)
      | getAllEHRs =>
        rcases getAllEHRs_status srv env with h1 | h1 <;>
          · simp only [Call.run] at h
            rw [h1] at h
            exact absurd h (by decide)
      | getEHRByPatient p =>
        simp only [Call.run] at h
        rcases getEHRByPatient_cases srv env p with ⟨hf, hn, _⟩ | ⟨_, r, _, _, h1⟩ | ⟨m, _, h1⟩
        · exact ⟨p, rfl, hf, hn⟩
        · rw [h1] at h
          simp at h
        · rw [h1] at h
          simp at h
    · rintro ⟨p, rfl, hf, hn⟩
      rcases getEHRByPatient_cases srv env p with ⟨_, _, h⟩ | ⟨_, r, hr, hrp, _⟩ | ⟨m, hm, _⟩
      · simp only [Call.run, h]
      · exact absurd hrp (hn r hr)
      · rw [hf] at hm
        cases hm

theorem handlers_answer_failures_witness :
    (createEHR Server.init { now := 10, fault := some "connection refused" } fluBody).1
        = ⟨500, Body.error (Message.driver "connection refused")⟩
      ∧ (getAllEHRs Server.init { now := 10, fault := some "connection refused" }).1
        = ⟨500, Body.error (Message.driver "connection refused")⟩
      ∧ (getEHRByPatient Server.init { now := 10, fault := some "connection refused" }
          "P1001").1 = ⟨500, Body.error (Message.driver "connection refused")⟩ :=
  have h := handlers_answer_failures Server.init
    { now := 10, fault := some "connection refused" }
  ⟨h.1 fluBody (Message.driver "connection refused") rfl,
    h.2.1 (Message.driver "connection refused") rfl,
    h.2.2.1 "P1001" (Message.driver "connection refused") rfl⟩

/-! ## What `createEHR` validates -/

theorem dateOk_of_dateIssue (path : String) (d : Option DateInput)
    (h : dateIssue path d = []) : dateOk d = true := by
  cases d with
  | none => rfl
  | some x =>
    cases x with
    | castable t => rfl
    | malformed raw => simp [dateIssue] at h
    | null => rfl

theorem idOk_of_idIssue (v : Option IdInput) (h : idIssue v = []) : idOk v = true := by
  cases v with
  | none => rfl
  | some x =>
    cases x with
    | castable id => rfl
    | malformed raw => simp [idIssue] at h

theorem all_of_conditionIssues (cs : List (Condition DateInput)) (i : Nat)
    (h : conditionIssues i cs = []) : cs.all (fun c => dateOk c.onsetDateTime) = true := by
  induction cs generalizing i with
  | nil => rfl
  | cons c cs ih =>
    simp only [conditionIssues, List.append_eq_nil] at h
    simp only [List.all_cons, Bool.and_eq_true]
    exact ⟨dateOk_of_dateIssue _ _ h.1, ih (i + 1) h.2⟩

theorem all_of_medicationIssues (ms : List (Medication DateInput)) (i : Nat)
    (h : medicationIssues i ms = []) : ms.all (fun m => dateOk m.authoredOn) = true := by
  induction ms generalizing i with
  | nil => rfl
  | cons m ms ih =>
    simp only [medicationIssues, List.append_eq_nil] at h
    simp only [List.all_cons, Bool.and_eq_true]
    exact ⟨dateOk_of_dateIssue _ _ h.1, ih (i + 1) h.2⟩

theorem not_missing_of_requiredIssue (path : String) (v : Option String)
    (h : requiredIssue path v = []) : missing v = false := by
  cases hm : missing v with
  | false => rfl
  | true => exact absurd h (requiredIssue_of_missing path v hm)

/-- A document that passes validation comes from a body with both required paths
present and the other paths fitting the schema. -/
theorem valid_of_validate_new (body : EhrInput) (oid : ObjectId) (now : Date)
    (h : validate (EHR.new body oid now) = []) :
    missing body.patientId = false ∧ missing body.summary = false
      ∧ fitsSchema body = true := by
  simp only [validate, EHR.new, castIssues, Patient.cast, List.append_eq_nil] at h
  obtain ⟨⟨⟨⟨⟨⟨⟨⟨⟨⟨⟨hid, hcf⟩, hb⟩, hps⟩, hpe⟩, hc⟩, hm⟩, hf⟩, hca⟩, hp⟩, hs⟩, hg⟩ := h
  refine ⟨not_missing_of_requiredIssue _ _ hp, not_missing_of_requiredIssue _ _ hs, ?_⟩
  have hgender : (match body.patient.gender with
      | none => true
      | some g => decide (g ∈ genderEnum)) = true := by
    cases hgv : body.patient.gender with
    | none => rfl
    | some g =>
      rw [hgv] at hg
      by_cases hmem : g ∈ genderEnum
      · simpa using hmem
      · simp [enumIssue, hmem] at hg
  have hcf0 : body.castFailures.isEmpty = true := by
    rw [List.map_eq_nil_iff] at hcf
    rw [hcf]
    rfl
  simp only [fitsSchema, Bool.and_eq_true]
  exact ⟨⟨⟨⟨⟨⟨⟨⟨⟨idOk_of_idIssue _ hid, hcf0⟩, hgender⟩, dateOk_of_dateIssue _ _ hb⟩,
    dateOk_of_dateIssue _ _ hps⟩, dateOk_of_dateIssue _ _ hpe⟩,
    all_of_conditionIssues _ _ hc⟩, all_of_medicationIssues _ _ hm⟩,
    dateOk_of_dateIssue _ _ hf⟩, dateOk_of_dateIssue _ _ hca⟩

theorem present_of_not_missing (v : Option String) (h : missing v = false) :
    ∃ s : String, v = some s ∧ s ≠ "" := by
  cases v with
  | none => simp [missing] at h
  | some s => exact ⟨s, rfl, by simpa [missing] using h⟩

/-- C11 (as stated, refuted): a body with non-empty `patientId` and `summary` and the
string "unknown" as `patient.gender` is answered 500 with the message of the validation
error on `patient.gender`, not 201, and nothing is stored; so is one whose `followUpDate`
does not cast to a date, and one that carries an object as `vitals.temperature`, where
the schema declares a string. -/
theorem createEHR_rejects_bad_gender :
    createEHR Server.init { now := 10 }
        { patientId := some "P1001", summary := some "Flu",
          patient := { gender := some "unknown" } }
        = (⟨500, Body.error (Message.validation
              [⟨"patient.gender", IssueKind.notInEnum "unknown"⟩])⟩,
            { store := [], oidCounter := 1 })
      ∧ createEHR Server.init { now := 10 }
          { patientId := some "P1001", summary := some "Flu",
            followUpDate := some (DateInput.malformed "soon") }
        = (⟨500, Body.error (Message.validation
              [⟨"followUpDate", IssueKind.castFailed "soon"⟩])⟩,
            { store := [], oidCounter := 1 })
      ∧ createEHR Server.init { now := 10 }
          { patientId := some "P1001", summary := some "Flu",
            castFailures := [⟨"vitals.temperature", "[object Object]"⟩] }
        = (⟨500, Body.error (Message.validation
              [⟨"vitals.temperature", IssueKind.castFailed "[object Object]"⟩])⟩,
            { store := [], oidCounter := 1 }) := by
  decide

/-- C11 (amended): `createEHR` validates more than the required paths. With the driver
accepting the insert, the answer is 201 if and only if `patientId` and `summary` are
non-empty strings, every other value the body supplies casts to the type of its path
(`_id` and the `Date` values included), `patient.gender` is absent or one of "male",
"female", "other", and no stored document has the `_id` of the new one; otherwise it is
500. -/
theorem createEHR_accepts_iff (srv : Server) (now : Date) (body : EhrInput) :
    ((createEHR srv { now := now, fault := none } body).1.status = 201
        ↔ (missing body.patientId = false ∧ missing body.summary = false
            ∧ fitsSchema body = true
            ∧ (EHR.new body srv.oidCounter now).doc._id ∉ srv.store.map (fun r => r._id)))
      ∧ ((createEHR srv { now := now, fault := none } body).1.status = 201
          ∨ (createEHR srv { now := now, fault := none } body).1.status = 500) := by
  cases hv : validate (EHR.new body srv.oidCounter now) with
  | nil =>
    by_cases hdup : (EHR.new body srv.oidCounter now).doc._id
        ∈ srv.store.map (fun r => r._id)
    · have hst : (createEHR srv { now := now, fault := none } body).1.status = 500 := by
        simp [createEHR, save, hv, hdup]
      refine ⟨⟨fun h => ?_, fun h => absurd hdup h.2.2.2⟩, Or.inr hst⟩
      rw [hst] at h
      exact absurd h (by decide)
    · have hst : (createEHR srv { now := now, fault := none } body).1.status = 201 := by
        simp only [createEHR, save, hv, hdup, if_false]
      have hval := valid_of_validate_new body _ _ hv
      exact ⟨⟨fun _ => ⟨hval.1, hval.2.1, hval.2.2, hdup⟩, fun _ => hst⟩, Or.inl hst⟩
  | cons i is =>
    have hst : (createEHR srv { now := now, fault := none } body).1.status = 500 := by
      simp [createEHR, save, hv]
    refine ⟨⟨fun h => ?_, fun h => ?_⟩, Or.inr hst⟩
    · rw [hst] at h
      exact absurd h (by decide)
    · obtain ⟨p, hp, hp0⟩ := present_of_not_missing _ h.1
      obtain ⟨sm, hs, hs0⟩ := present_of_not_missing _ h.2.1
      have hnil := validate_new_of_valid body srv.oidCounter now p sm hp hp0 hs hs0 h.2.2.1
      rw [hv] at hnil
      cases hnil

theorem createEHR_accepts_iff_witness :
    (createEHR Server.init { now := 10, fault := none } fluBody).1.status = 201
      ∧ (createEHR (createEHR Server.init { now := 10 } suppliedIdBody).2
          { now := 20, fault := none } suppliedIdBody).1.status ≠ 201 :=
  ⟨(createEHR_accepts_iff Server.init 10 fluBody).1.mpr ⟨rfl, rfl, by decide, by decide⟩,
    fun h => ((createEHR_accepts_iff (createEHR Server.init { now := 10 } suppliedIdBody).2
      20 suppliedIdBody).1.mp h).2.2.2 (by decide)⟩

/-! ## No uniqueness of `patientId` -/

/-- C12: when the collection already holds a document with `patientId` p, `createEHR`
with a valid body whose `patientId` is p answers 201, the read and the insert
succeeding, and appends the new document, so both are stored; `getEHRByPatient` for p
afterwards answers as it did before, with the first document of the collection whose
`patientId` is p, which is an earlier one: its `_id` differs from that of the new
document. A valid body is one with non-empty `patientId` and `summary` that fits the
schema and whose document has an `_id` no stored document has. -/
theorem patientId_not_unique (srv : Server) (now now1 : Date) (body : EhrInput)
    (p sm : String) (r0 : EhrDoc) (hr0 : r0 ∈ srv.store) (hr0p : r0.patientId = some p)
    (hp : body.patientId = some p) (hp0 : p ≠ "")
    (hs : body.summary = some sm) (hs0 : sm ≠ "") (hfit : fitsSchema body = true)
    (hnew : ∀ r ∈ srv.store, r._id ≠ (EHR.new body srv.oidCounter now).doc._id) :
    ∃ (ehr first : EhrDoc) (srv1 : Server),
      createEHR srv { now := now, fault := none } body
          = (⟨201, Body.messageEhr "EHR stored successfully" ehr⟩, srv1)
        ∧ srv1.store = srv.store ++ [ehr]
        ∧ ehr.patientId = some p
        ∧ r0 ∈ srv1.store ∧ ehr ∈ srv1.store
        ∧ srv.store.find? (fun d => decide (d.patientId = some p)) = some first
        ∧ first ∈ srv.store
        ∧ (getEHRByPatient srv1 { now := now1, fault := none } p).1
            = ⟨200, Body.record first⟩
        ∧ (getEHRByPatient srv { now := now1, fault := none } p).1
            = ⟨200, Body.record first⟩
        ∧ first._id ≠ ehr._id := by
  have hv := validate_new_of_valid body srv.oidCounter now p sm hp hp0 hs hs0 hfit
  cases hf : srv.store.find? (fun d => decide (d.patientId = some p)) with
  | none =>
    rw [List.find?_eq_none] at hf
    exact absurd (by simpa using hr0p) (hf r0 hr0)
  | some first =>
    have hmem : first ∈ srv.store := List.mem_of_find?_eq_some hf
    refine ⟨(EHR.new body srv.oidCounter now).doc, first,
      { store := srv.store ++ [(EHR.new body srv.oidCounter now).doc],
        oidCounter := srv.oidCounter + 1 }, ?_, rfl, ?_, ?_, ?_, rfl, hmem, ?_, ?_, ?_⟩
    · simp [createEHR, save_of_valid _ _ hv hnew]
    · simpa [EHR.new] using hp
    · exact List.mem_append_left _ hr0
    · exact List.mem_append_right _ (List.mem_singleton_self _)
    · rw [getEHRByPatient_of_find _ now1 p first (by simp [List.find?_append, hf])]
    · rw [getEHRByPatient_of_find srv now1 p first hf]
    · exact hnew first hmem

theorem patientId_not_unique_witness :
    ∃ (ehr first : EhrDoc) (srv1 : Server),
      createEHR (createEHR Server.init { now := 5 } fluBody).2 { now := 10, fault := none }
          twoMedsBody
          = (⟨201, Body.messageEhr "EHR stored successfully" ehr⟩, srv1)
        ∧ srv1.store = (createEHR Server.init { now := 5 } fluBody).2.store ++ [ehr]
        ∧ ehr.patientId = some "P1001"
        ∧ (EHR.new fluBody 0 5).doc ∈ srv1.store ∧ ehr ∈ srv1.store
        ∧ (createEHR Server.init { now := 5 } fluBody).2.store.find?
            (fun d => decide (d.patientId = some "P1001")) = some first
        ∧ first ∈ (createEHR Server.init { now := 5 } fluBody).2.store
        ∧ (getEHRByPatient srv1 { now := 20, fault := none } "P1001").1
            = ⟨200, Body.record first⟩
        ∧ (getEHRByPatient (createEHR Server.init { now := 5 } fluBody).2
            { now := 20, fault := none } "P1001").1 = ⟨200, Body.record first⟩
        ∧ first._id ≠ ehr._id :=
  patientId_not_unique (createEHR Server.init { now := 5 } fluBody).2 10 20 twoMedsBody
    "P1001" "Flu" (EHR.new fluBody 0 5).doc (by decide) rfl rfl (by decide) rfl (by decide)
    (by decide) (by decide)

/-! ## Routes -/

/-- C13: the router has exactly three routes: a request is routed if and only if it is
`POST /`, `GET /` or `GET /:patient_id` with one path segment. A `PUT` or `DELETE`
request to `/api/ehr/{id}`, whatever the id and the body, matches no route, no handler
runs, and the server state, hence the collection, is the same after it. -/
theorem put_delete_not_routed (srv : Server) (env : Env) (id : String) (body : EhrInput) :
    (∀ req : Request,
        (router req).isSome = true ↔
          ((req.method = Method.POST ∧ req.path.filter (fun seg => decide (seg ≠ "")) = [])
            ∨ (req.method = Method.GET
                ∧ req.path.filter (fun seg => decide (seg ≠ "")) = [])
            ∨ (req.method = Method.GET
                ∧ ∃ seg : String, req.path.filter (fun seg => decide (seg ≠ "")) = [seg])))
      ∧ router ⟨Method.PUT, [id], body⟩ = none
      ∧ router ⟨Method.DELETE, [id], body⟩ = none
      ∧ handle srv env ⟨Method.PUT, [id], body⟩ = none
      ∧ handle srv env ⟨Method.DELETE, [id], body⟩ = none
      ∧ Server.after srv env ⟨Method.PUT, [id], body⟩ = srv
      ∧ Server.after srv env ⟨Method.DELETE, [id], body⟩ = srv := by
  have hput : router ⟨Method.PUT, [id], body⟩ = none := by
    simp only [router]
  have hdel : router ⟨Method.DELETE, [id], body⟩ = none := by
    simp only [router]
  refine ⟨?_, hput, hdel, by simp [handle, hput], by simp [handle, hdel],
    by simp [Server.after, handle, hput], by simp [Server.after, handle, hdel]⟩
  intro req
  obtain ⟨method, path, rbody⟩ := req
  simp only [router]
  cases method <;> cases hpath : path.filter (fun seg => decide (seg ≠ "")) with
  | nil => simp
  | cons a t => cases t <;> simp

theorem put_delete_not_routed_witness :
    (router ⟨Method.GET, ["P1001"], {}⟩).isSome = true
      ∧ router ⟨Method.PUT, ["000000000000000000000000"], fluBody⟩ = none :=
  ⟨((put_delete_not_routed Server.init { now := 10 } "000000000000000000000000"
      fluBody).1 ⟨Method.GET, ["P1001"], {}⟩).mpr
      (Or.inr (Or.inr ⟨rfl, "P1001", by decide⟩)),
    (put_delete_not_routed Server.init { now := 10 } "000000000000000000000000"
      fluBody).2.1⟩

/-! ## The second lookup handler -/

/-- C14 (as stated, refuted): on the empty collection the two handlers answer the same
path parameter with different bodies, "EHR not found" against "No record found"; on a
driver failure one sends `{message, error}` and the other `{error}`; and the name
`getEHRByPatientId` is not a property of what the controller module exports. -/
theorem getEHRByPatientId_differs :
    (getEHRByPatientId Server.init { now := 10 } "P1001").1
        = ⟨404, Body.message "EHR not found"⟩
      ∧ (getEHRByPatient Server.init { now := 10 } "P1001").1
        = ⟨404, Body.message "No record found"⟩
      ∧ (getEHRByPatientId Server.init { now := 10 } "P1001").1
        ≠ (getEHRByPatient Server.init { now := 10 } "P1001").1
      ∧ (getEHRByPatientId Server.init { now := 10, fault := some "timeout" } "P1001").1
        = ⟨500, Body.messageError "Server Error" (Message.driver "timeout")⟩
      ∧ (getEHRByPatient Server.init { now := 10, fault := some "timeout" } "P1001").1
        = ⟨500, Body.error (Message.driver "timeout")⟩
      ∧ "getEHRByPatientId" ∉ controllerExports := by
  decide

/-- C14 (amended): given the same patient identifier, `getEHRByPatientId` and
`getEHRByPatient` always answer with the same status and leave the server state
unchanged; when a stored document has that `patientId` both answer 200 with the same
document; when none has, both answer 404, with the messages "EHR not found" and "No
record found"; on a failure of the read with message `m` both answer 500, with the
bodies `{message: "Server Error", error: m}` and `{error: m}`. -/
theorem getEHRByPatientId_same_status (srv : Server) (env : Env) (p : String) :
    (getEHRByPatientId srv env p).1.status = (getEHRByPatient srv env p).1.status
      ∧ (getEHRByPatientId srv env p).2 = srv ∧ (getEHRByPatient srv env p).2 = srv
      ∧ (∀ r : EhrDoc, (getEHRByPatient srv env p).1 = ⟨200, Body.record r⟩ →
          (getEHRByPatientId srv env p).1 = ⟨200, Body.record r⟩)
      ∧ ((∃ r ∈ srv.store, r.patientId = some p) → env.fault = none →
          (getEHRByPatientId srv env p).1 = (getEHRByPatient srv env p).1
            ∧ (getEHRByPatient srv env p).1.status = 200)
      ∧ ((∀ r ∈ srv.store, r.patientId ≠ some p) → env.fault = none →
          (getEHRByPatientId srv env p).1 = ⟨404, Body.message "EHR not found"⟩
            ∧ (getEHRByPatient srv env p).1 = ⟨404, Body.message "No record found"⟩)
      ∧ ∀ m : String, env.fault = some m →
          (getEHRByPatientId srv env p).1
              = ⟨500, Body.messageError "Server Error" (Message.driver m)⟩
            ∧ (getEHRByPatient srv env p).1 = ⟨500, Body.error (Message.driver m)⟩ := by
  cases hf : env.fault with
  | some m =>
    have hq : EHR.findOne srv.store p env.fault = Except.error (Message.driver m) := by
      simp [EHR.findOne, hf]
    have hA : getEHRByPatientId srv env p
        = (⟨500, Body.messageError "Server Error" (Message.driver m)⟩, srv) := by
      simp [getEHRByPatientId, hq]
    have hB : getEHRByPatient srv env p = (⟨500, Body.error (Message.driver m)⟩, srv) := by
      simp [getEHRByPatient, hq]
    rw [hA, hB]
    refine ⟨rfl, rfl, rfl, ?_, ?_, ?_, ?_⟩
    · intro r h
      simp at h
    · intro _ h
      cases h
    · intro _ h
      cases h
    · intro m1 h
      cases h
      exact ⟨rfl, rfl⟩
  | none =>
    cases hq : srv.store.find? (fun d => decide (d.patientId = some p)) with
    | none =>
      have hQ : EHR.findOne srv.store p env.fault = Except.ok none := by
        simp [EHR.findOne, hf, hq]
      have hA : getEHRByPatientId srv env p = (⟨404, Body.message "EHR not found"⟩, srv) := by
        simp [getEHRByPatientId, hQ]
      have hB : getEHRByPatient srv env p
          = (⟨404, Body.message "No record found"⟩, srv) := by
        simp [getEHRByPatient, hQ]
      rw [hA, hB]
      refine ⟨rfl, rfl, rfl, ?_, ?_, ?_, ?_⟩
      · intro r h
        simp at h
      · rintro ⟨r, hr, hrp⟩ _
        rw [List.find?_eq_none] at hq
        exact absurd (by simpa using hrp) (hq r hr)
      · intro _ _
        exact ⟨rfl, rfl⟩
      · intro m h
        cases h
    | some r0 =>
      have hQ : EHR.findOne srv.store p env.fault = Except.ok (some r0) := by
        simp [EHR.findOne, hf, hq]
      have hA : getEHRByPatientId srv env p = (⟨200, Body.record r0⟩, srv) := by
        simp [getEHRByPatientId, hQ]
      have hB : getEHRByPatient srv env p = (⟨200, Body.record r0⟩, srv) := by
        simp [getEHRByPatient, hQ]
      rw [hA, hB]
      refine ⟨rfl, rfl, rfl, ?_, ?_, ?_, ?_⟩
      · intro r h
        exact h
      · intro _ _
        exact ⟨rfl, rfl⟩
      · intro hn _
        have hr0p : r0.patientId = some p := by simpa using List.find?_some hq
        exact absurd hr0p (hn r0 (List.mem_of_find?_eq_some hq))
      · intro m h
        cases h

theorem getEHRByPatientId_same_status_witness :
    (getEHRByPatientId (createEHR Server.init { now := 5 } fluBody).2 { now := 10 }
        "P1001").1
        = (getEHRByPatient (createEHR Server.init { now := 5 } fluBody).2 { now := 10 }
            "P1001").1
      ∧ (getEHRByPatient (createEHR Server.init { now := 5 } fluBody).2 { now := 10 }
          "P1001").1.status = 200 :=
  (getEHRByPatientId_same_status (createEHR Server.init { now := 5 } fluBody).2
    { now := 10 } "P1001").2.2.2.2.1 ⟨(EHR.new fluBody 0 5).doc, by decide, rfl⟩ rfl

/-! ## The patient list: deleting -/

/-- C15: `handleDelete(id)` sends nothing and keeps the list when the user declines;
when the user confirms it sends exactly one `DELETE /api/ehr/{id}`, and the list changes
only on an `ok` response, to the old list without the records whose `_id` is `id`, the
others kept in their order; on a response that is not `ok` and on a network error the
list is unchanged. -/
theorem handleDelete_effect (patients : List EhrDoc) (outcome : FetchOutcome)
    (id : ObjectId) :
    handleDelete patients false outcome id = { requests := [], patients := patients }
      ∧ (handleDelete patients true outcome id).requests
          = [⟨Method.DELETE, [ObjectId.toHexString id], {}⟩]
      ∧ (handleDelete patients true (FetchOutcome.response true) id).patients
          = patients.filter (fun p => decide (p._id ≠ id))
      ∧ (handleDelete patients true (FetchOutcome.response true) id).patients.Sublist
          patients
      ∧ (∀ p : EhrDoc,
          p ∈ (handleDelete patients true (FetchOutcome.response true) id).patients
            ↔ p ∈ patients ∧ p._id ≠ id)
      ∧ (handleDelete patients true (FetchOutcome.response false) id).patients = patients
      ∧ (handleDelete patients true FetchOutcome.rejected id).patients = patients
      ∧ ∀ confirmed : Bool,
          (handleDelete patients confirmed outcome id).patients ≠ patients →
            confirmed = true ∧ outcome = FetchOutcome.response true := by
  refine ⟨rfl, ?_, rfl, ?_, ?_, rfl, rfl, ?_⟩
  · cases outcome with
    | response ok => cases ok <;> rfl
    | rejected => rfl
  · exact List.filter_sublist patients
  · intro p
    simp [handleDelete, List.mem_filter]
  · intro confirmed h
    cases confirmed with
    | false => exact absurd rfl h
    | true =>
      cases outcome with
      | response ok =>
        cases ok with
        | true => exact ⟨rfl, rfl⟩
        | false => exact absurd rfl h
      | rejected => exact absurd rfl h

theorem handleDelete_effect_witness :
    (handleDelete [(EHR.new fluBody 0 5).doc, (EHR.new twoMedsBody 1 10).doc] true
        (FetchOutcome.response true) 0).patients = [(EHR.new twoMedsBody 1 10).doc]
      ∧ (true = true ∧ FetchOutcome.response true = FetchOutcome.response true) :=
  ⟨(handleDelete_effect [(EHR.new fluBody 0 5).doc, (EHR.new twoMedsBody 1 10).doc]
      (FetchOutcome.response true) 0).2.2.1.trans (by decide),
    (handleDelete_effect [(EHR.new fluBody 0 5).doc, (EHR.new twoMedsBody 1 10).doc]
      (FetchOutcome.response true) 0).2.2.2.2.2.2.2 true (by decide)⟩

/-! ## The patient list: searching -/

theorem includes_empty (s : String) : includes s "" = true := by
  simp [includes]

/-- C17: the table shows a record exactly when the lower-cased search term occurs in the
lower-cased first given name, `patientId` or `summary`, each taken as "" when absent;
the shown list is a sublist of the fetched list in the same order, a search term that
lower-cases to "" (as the empty term does) shows every record, and in the footer
"Showing X of Y" X is at most Y. -/
theorem filteredPatients_shows_iff (toLowerCase : String → String)
    (patients : List EhrDoc) (searchTerm : String) :
    (∀ p : EhrDoc, p ∈ filteredPatients toLowerCase patients searchTerm ↔
        p ∈ patients
          ∧ ((toLowerCase searchTerm).data
                <:+: ((p.patient.name.given.head?.map toLowerCase).getD "").data
              ∨ (toLowerCase searchTerm).data
                <:+: ((p.patientId.map toLowerCase).getD "").data
              ∨ (toLowerCase searchTerm).data
                <:+: ((p.summary.map toLowerCase).getD "").data))
      ∧ (filteredPatients toLowerCase patients searchTerm).Sublist patients
      ∧ (toLowerCase searchTerm = "" →
          filteredPatients toLowerCase patients searchTerm = patients)
      ∧ (footerCounts toLowerCase patients searchTerm).1
          ≤ (footerCounts toLowerCase patients searchTerm).2 := by
  refine ⟨?_, List.filter_sublist patients, ?_, ?_⟩
  · intro p
    simp only [filteredPatients, List.mem_filter, matchesSearch, includes, Bool.or_eq_true,
      decide_eq_true_eq]
    cases p.patient.name.given.head? <;> cases p.patientId <;> cases p.summary <;>
      simp [or_assoc]
  · intro h
    simp only [filteredPatients]
    rw [List.filter_eq_self]
    intro p _
    simp [matchesSearch, h, includes_empty]
  · simp only [footerCounts, filteredPatients]
    exact List.length_filter_le _ _

theorem filteredPatients_shows_iff_witness :
    filteredPatients asciiLower
        [(EHR.new fluBody 0 5).doc, (EHR.new twoMedsBody 1 10).doc] ""
      = [(EHR.new fluBody 0 5).doc, (EHR.new twoMedsBody 1 10).doc] :=
  (filteredPatients_shows_iff asciiLower
    [(EHR.new fluBody 0 5).doc, (EHR.new twoMedsBody 1 10).doc] "").2.2.1 (by decide)

/-! ## Sign-in -/

theorem getItem_setItem_same (l : List (String × StoredValue)) (k : String)
    (v : StoredValue) : getItem (setItem l k v) k = some v := by
  induction l with
  | nil => simp [setItem, getItem]
  | cons x xs ih =>
    obtain ⟨k1, v1⟩ := x
    by_cases h : k1 = k
    · simp [setItem, getItem, h]
    · simp [setItem, getItem, h, ih]

theorem getItem_setItem_other (l : List (String × StoredValue)) (k k2 : String)
    (v : StoredValue) (hk : k2 ≠ k) : getItem (setItem l k v) k2 = getItem l k2 := by
  induction l with
  | nil => simp [setItem, getItem, Ne.symm hk]
  | cons x xs ih =>
    obtain ⟨k1, v1⟩ := x
    by_cases h : k1 = k
    · subst h
      simp [setItem, getItem, Ne.symm hk]
    · by_cases h2 : k1 = k2
      · subst h2
        simp [setItem, getItem, h]
      · simp [setItem, getItem, h, h2, ih]

/-- C19: after a successful sign-in response `{token, user}`, `handleSignin` has stored
the token under "token" and the serialised user under "user" and has navigated once: to
"/dashboard" if and only if `user.role` is exactly "Doctor", to "/" for every other
role. When the request fails the storage is untouched and no navigation is made. -/
theorem handleSignin_effect (b : Browser) (token : String) (user : User)
    (message : Option String) :
    getItem (handleSignin b (SigninOutcome.success token user)).localStorage "token"
        = some (StoredValue.text token)
      ∧ getItem (handleSignin b (SigninOutcome.success token user)).localStorage "user"
        = some (StoredValue.userJson user)
      ∧ (∀ k : String, k ≠ "token" → k ≠ "user" →
          getItem (handleSignin b (SigninOutcome.success token user)).localStorage k
            = getItem b.localStorage k)
      ∧ ((handleSignin b (SigninOutcome.success token user)).navigated
            = b.navigated ++ ["/dashboard"] ↔ user.role = some "Doctor")
      ∧ ((handleSignin b (SigninOutcome.success token user)).navigated
            = b.navigated ++ ["/"] ↔ user.role ≠ some "Doctor")
      ∧ (handleSignin b (SigninOutcome.failure message)).localStorage = b.localStorage
      ∧ (handleSignin b (SigninOutcome.failure message)).navigated = b.navigated := by
  refine ⟨?_, ?_, ?_, ?_, ?_, rfl, rfl⟩
  · simp only [handleSignin]
    rw [getItem_setItem_other _ _ _ _ (by decide), getItem_setItem_same]
  · simp only [handleSignin]
    rw [getItem_setItem_same]
  · intro k h1 h2
    simp only [handleSignin]
    rw [getItem_setItem_other _ _ _ _ h2, getItem_setItem_other _ _ _ _ h1]
  · by_cases h : user.role = some "Doctor" <;> simp [handleSignin, h]
  · by_cases h : user.role = some "Doctor" <;> simp [handleSignin, h]

theorem handleSignin_effect_witness :
    (handleSignin {} (SigninOutcome.success "t0k3n" { role := some "Doctor" })).navigated
        = ["/dashboard"]
      ∧ (handleSignin {} (SigninOutcome.success "t0k3n" { role := some "doctor" })).navigated
        = ["/"] :=
  ⟨(handleSignin_effect {} "t0k3n" { role := some "Doctor" } none).2.2.2.1.mpr rfl,
    (handleSignin_effect {} "t0k3n" { role := some "doctor" } none).2.2.2.2.1.mpr
      (by decide)⟩

/-! ## The edit view: nested array elements -/

theorem getProp_setProp_same (l : List (String × JsValue)) (k : String) (v : JsValue) :
    getProp (setProp l k v) k = v := by
  induction l with
  | nil => simp [setProp, getProp]
  | cons x xs ih =>
    obtain ⟨k1, v1⟩ := x
    by_cases h : k1 = k
    · simp [setProp, getProp, h]
    · simp [setProp, getProp, h, ih]

theorem getProp_setProp_other (l : List (String × JsValue)) (k k2 : String) (v : JsValue)
    (hk : k2 ≠ k) : getProp (setProp l k v) k2 = getProp l k2 := by
  induction l with
  | nil => simp [setProp, getProp, Ne.symm hk]
  | cons x xs ih =>
    obtain ⟨k1, v1⟩ := x
    by_cases h : k1 = k
    · subst h
      simp [setProp, getProp, Ne.symm hk]
    · by_cases h2 : k1 = k2
      · subst h2
        simp [setProp, getProp, h]
      · simp [setProp, getProp, h, h2, ih]

theorem getIndex_setIndex_same (elems : List JsValue) (i : Nat) (v : JsValue)
    (h : i < elems.length) : getIndex (setIndex elems i v) i = v := by
  simp [getIndex, setIndex, h, List.getD_eq_getElem?_getD]

theorem getIndex_setIndex_other (elems : List JsValue) (i j : Nat) (v : JsValue)
    (h : i < elems.length) (hj : j ≠ i) :
    getIndex (setIndex elems i v) j = getIndex elems j := by
  simp [getIndex, setIndex, h, List.getD_eq_getElem?_getD, List.getElem?_set_ne (Ne.symm hj)]

/-- C18: for a state whose property `key` is an array and an index inside it,
`handleArrayChange(index, field, value, key)` returns a state in which `key` is an array
of the same length whose element at `index` is an object with `field` equal to `value`
and every other property as in the old element, every other element is the old one at
the same position, and every other property of the state is unchanged. -/
theorem handleArrayChange_updates_element (index : Nat) (field : String) (value : JsValue)
    (key : String) (prev : List (String × JsValue)) (elems : List JsValue)
    (hkey : getProp prev key = JsValue.array elems) (hidx : index < elems.length) :
    ∃ (next : List (String × JsValue)) (elems1 : List JsValue)
        (props1 : List (String × JsValue)),
      handleArrayChange index field value key prev = Except.ok next
        ∧ getProp next key = JsValue.array elems1
        ∧ elems1.length = elems.length
        ∧ getIndex elems1 index = JsValue.object props1
        ∧ getProp props1 field = value
        ∧ (∀ f : String, f ≠ field →
            getProp props1 f = getProp (spread (getIndex elems index)) f)
        ∧ (∀ eprops : List (String × JsValue),
            getIndex elems index = JsValue.object eprops →
              ∀ f : String, f ≠ field → getProp props1 f = getProp eprops f)
        ∧ (∀ j : Nat, j ≠ index → getIndex elems1 j = getIndex elems j)
        ∧ ∀ k : String, k ≠ key → getProp next k = getProp prev k := by
  refine ⟨setProp prev key (JsValue.array (setIndex elems index
      (JsValue.object (setProp (spread (getIndex elems index)) field value)))),
    setIndex elems index
      (JsValue.object (setProp (spread (getIndex elems index)) field value)),
    setProp (spread (getIndex elems index)) field value, ?_, ?_, ?_, ?_, ?_, ?_, ?_, ?_, ?_⟩
  · simp only [handleArrayChange, hkey, iterate]
  · exact getProp_setProp_same _ _ _
  · simp [setIndex, hidx]
  · exact getIndex_setIndex_same _ _ _ hidx
  · exact getProp_setProp_same _ _ _
  · intro f hf
    exact getProp_setProp_other _ _ _ _ hf
  · intro eprops he f hf
    rw [getProp_setProp_other _ _ _ _ hf, he]
    rfl
  · intro j hj
    exact getIndex_setIndex_other _ _ _ _ hidx hj
  · intro k hk
    exact getProp_setProp_other _ _ _ _ hk

theorem handleArrayChange_updates_element_witness :
    ∃ (next : List (String × JsValue)) (elems1 : List JsValue)
        (props1 : List (String × JsValue)),
      handleArrayChange 1 "dosage" (JsValue.string "200mg") "medications" editState
          = Except.ok next
        ∧ getProp next "medications" = JsValue.array elems1
        ∧ elems1.length = 2
        ∧ getIndex elems1 1 = JsValue.object props1
        ∧ getProp props1 "dosage" = JsValue.string "200mg"
        ∧ getProp props1 "name" = JsValue.string "Ibuprofen"
        ∧ getIndex elems1 0
            = JsValue.object [("name", JsValue.string "Paracetamol"),
                ("dosage", JsValue.string "500mg")]
        ∧ getProp next "summary" = JsValue.string "Flu" :=
  have h := handleArrayChange_updates_element 1 "dosage" (JsValue.string "200mg")
    "medications" editState
    [JsValue.object [("name", JsValue.string "Paracetamol"),
        ("dosage", JsValue.string "500mg")],
      JsValue.object [("name", JsValue.string "Ibuprofen")]] rfl (by decide)
  match h with
  | ⟨next, elems1, props1, h1, h2, h3, h4, h5, _, h7, h8, h9⟩ =>
    ⟨next, elems1, props1, h1, h2, h3, h4, h5,
      (h7 [("name", JsValue.string "Ibuprofen")] rfl "name" (by decide)).trans rfl,
      (h8 0 (by decide)).trans rfl, (h9 "summary" (by decide)).trans rfl⟩

/-! ## The consultation card -/

theorem schedule_weight (t : Timeout) (l : List Timeout) (w : Timeout → Nat) :
    ((schedule t l).map w).sum = w t + (l.map w).sum := by
  induction l with
  | nil => simp [schedule]
  | cons x xs ih =>
    unfold schedule
    split
    · simp only [List.map_cons, List.sum_cons, ih]
      omega
    · simp

theorem schedule_length (t : Timeout) (l : List Timeout) :
    (schedule t l).length = l.length + 1 := by
  induction l with
  | nil => simp [schedule]
  | cons x xs ih =>
    unfold schedule
    split
    · simp [ih]
    · simp

/-- Running a timer event lowers the bound on the events still to run. -/
theorem Card.fireNext_pendingEvents (target : Nat) (c c1 : Card)
    (h : c.fireNext target = some c1) :
    c1.pendingEvents target < c.pendingEvents target := by
  obtain ⟨isRec, isProc, rt, pd, now, timeouts, interval⟩ := c
  cases timeouts with
  | nil =>
    cases interval with
    | none => simp [Card.fireNext] at h
    | some i =>
      simp only [Card.fireNext] at h
      split at h
      · rename_i hle
        simp only [Option.some.injEq] at h
        subst h
        simp only [Card.pendingEvents, Card.tick, hle, if_true, List.map_nil, List.sum_nil]
        split <;> omega
      · cases h
  | cons t rest =>
    have hrun : (Card.runTimeout ⟨isRec, isProc, rt, pd, now, t :: rest, interval⟩ t
        rest).pendingEvents target
          < (Card.mk isRec isProc rt pd now (t :: rest) interval).pendingEvents target := by
      obtain ⟨due, cb⟩ := t
      cases cb with
      | stopRecording =>
        simp only [Card.runTimeout, Card.stopRecording, Card.pendingEvents, schedule_weight,
          List.map_cons, List.sum_cons]
        omega
      | processingDone =>
        simp only [Card.runTimeout, Card.processingDone, Card.pendingEvents, List.map_cons,
          List.sum_cons]
        omega
    cases interval with
    | none =>
      simp only [Card.fireNext] at h
      split at h
      · simp only [Option.some.injEq] at h
        subst h
        exact hrun
      · cases h
    | some i =>
      simp only [Card.fireNext] at h
      split at h
      · split at h
        · simp only [Option.some.injEq] at h
          subst h
          exact hrun
        · cases h
      · split at h
        · rename_i hle
          simp only [Option.some.injEq] at h
          subst h
          simp only [Card.pendingEvents, Card.tick, hle, if_true]
          split <;> omega
        · cases h

/-- With fuel above the bound, `advance` runs every timer event due by `target` and
stops the clock at `target`. -/
theorem Card.advance_complete (fuel target : Nat) (c : Card)
    (h : c.pendingEvents target < fuel) :
    (Card.advance fuel target c).now = target
      ∧ (Card.advance fuel target c).fireNext target = none := by
  induction fuel generalizing c with
  | zero => exact absurd h (Nat.not_lt_zero _)
  | succ n ih =>
    unfold Card.advance
    cases hf : c.fireNext target with
    | some c1 =>
      have hlt := Card.fireNext_pendingEvents target c c1 hf
      exact ih c1 (by omega)
    | none =>
      refine ⟨rfl, ?_⟩
      obtain ⟨isRec, isProc, rt, pd, now, timeouts, interval⟩ := c
      cases timeouts <;> cases interval <;> simp only [Card.fireNext] at hf ⊢
      all_goals first | rfl | (split_ifs at hf ⊢ <;> rfl)

/-- Totality of `wait`: on a card whose interval is not overdue the fuel of `wait` is
enough, so after `ms` milliseconds the clock shows `now + ms` and no timer event due by
then is left. -/
theorem Card.wait_complete (c : Card) (ms : Nat)
    (hi : ∀ i : Nat, c.interval = some i → c.now ≤ i) :
    (c.wait ms).now = c.now + ms ∧ (c.wait ms).fireNext (c.now + ms) = none := by
  apply Card.advance_complete
  have hsum : ∀ l : List Timeout, (l.map fun t =>
      match t.callback with
      | TimeoutKind.stopRecording => 2
      | TimeoutKind.processingDone => 1).sum ≤ 2 * l.length := by
    intro l
    induction l with
    | nil => simp
    | cons x xs ih =>
      simp only [List.map_cons, List.sum_cons, List.length_cons]
      cases x.callback <;> simp only <;> omega
  have hs := hsum c.timeouts
  unfold Card.pendingEvents
  cases hint : c.interval with
  | none => simp only; omega
  | some i =>
    have hle := hi i hint
    simp only
    split <;> omega

/-- C16: the events Start at 0 s, Stop at 2 s and the passing of time up to 8 s. At 5 s
the card shows the result alone. At 8 s the timeout armed by `startRecording`, which no
code clears, runs `stopRecording`: `isProcessing` is true while `patientData` is still
set, so two phases are shown at once and processing is entered again after the result.
At 11 s the result alone is shown again. -/
theorem stale_stop_timeout_reenters_processing :
    Card.run {} [CardEvent.clickStart, CardEvent.wait 2000, CardEvent.clickStop,
        CardEvent.wait 3000]
        = { patientData := some extractedData, now := 5000, recordingTime := 2,
            timeouts := [⟨8000, TimeoutKind.stopRecording⟩] }
      ∧ Card.run {} [CardEvent.clickStart, CardEvent.wait 2000, CardEvent.clickStop,
          CardEvent.wait 3000, CardEvent.wait 3000]
        = { isProcessing := true, patientData := some extractedData, now := 8000,
            recordingTime := 2, timeouts := [⟨11000, TimeoutKind.processingDone⟩] }
      ∧ (Card.run {} [CardEvent.clickStart, CardEvent.wait 2000, CardEvent.clickStop,
          CardEvent.wait 3000, CardEvent.wait 3000]).phasesShown = 2
      ∧ Card.run {} [CardEvent.clickStart, CardEvent.wait 2000, CardEvent.clickStop,
          CardEvent.wait 3000, CardEvent.wait 3000, CardEvent.wait 3000]
        = { patientData := some extractedData, now := 11000, recordingTime := 2 } := by
  decide

/-! ## The dashboard flag `consultationActive` -/

theorem Card.step_onStart (c : Card) (e : CardEvent) :
    (c.step e).2 = none ∨ (c.step e).2 = some true := by
  cases e with
  | clickStart =>
    simp only [Card.step]
    split
    · exact Or.inr rfl
    · exact Or.inl rfl
  | clickStop =>
    simp only [Card.step]
    split <;> exact Or.inl rfl
  | wait ms => exact Or.inl rfl

theorem Dashboard.step_showPatientRecords (d : Dashboard) (e : CardEvent) :
    (d.step e).showPatientRecords = d.showPatientRecords := by
  unfold Dashboard.step
  split
  · rfl
  · split <;> rfl

theorem Dashboard.run_showPatientRecords (d : Dashboard) (evs : List CardEvent) :
    (d.run evs).showPatientRecords = d.showPatientRecords := by
  induction evs generalizing d with
  | nil => rfl
  | cons e es ih =>
    simp only [Dashboard.run]
    rw [ih, Dashboard.step_showPatientRecords]

theorem Dashboard.step_active (d : Dashboard) (e : CardEvent)
    (h : d.consultationActive = true) : (d.step e).consultationActive = true := by
  unfold Dashboard.step
  split
  · exact h
  · rcases Card.step_onStart d.card e with h2 | h2
    · split
      · rename_i c active heq
        rw [heq] at h2
        cases h2
      · exact h
    · split
      · rename_i c active heq
        rw [heq] at h2
        cases h2
        rfl
      · exact h

theorem Dashboard.run_active (d : Dashboard) (evs : List CardEvent)
    (h : d.consultationActive = true) : (d.run evs).consultationActive = true := by
  induction evs generalizing d with
  | nil => exact h
  | cons e es ih => exact ih _ (Dashboard.step_active d e h)

/-- Time passing on a card that was never started changes nothing but the clock. -/
theorem Card.wait_idle (c : Card) (ms : Nat) (ht : c.timeouts = []) (hi : c.interval = none) :
    c.wait ms = { c with now := c.now + ms } := by
  simp [Card.wait, Card.advance, Card.fireNext, ht, hi]

/-- Before the first click on Start the flag follows the events: it is set by the first
`clickStart` and by nothing else. -/
theorem Dashboard.run_of_idle (d : Dashboard) (evs : List CardEvent)
    (hs : d.showPatientRecords = false) (ha : d.consultationActive = false)
    (hr : d.card.isRecording = false) (hp : d.card.isProcessing = false)
    (hd : d.card.patientData = none) (ht : d.card.timeouts = [])
    (hi : d.card.interval = none) :
    (d.run evs).consultationActive = true ↔ CardEvent.clickStart ∈ evs := by
  induction evs generalizing d with
  | nil => simp [Dashboard.run, ha]
  | cons e es ih =>
    cases e with
    | clickStart =>
      have hstep : (d.step CardEvent.clickStart).consultationActive = true := by
        simp [Dashboard.step, Card.step, Card.showsStart, Card.startRecording, hs, hr, hp, hd]
      simp only [Dashboard.run, List.mem_cons, true_or, iff_true]
      exact Dashboard.run_active _ es hstep
    | clickStop =>
      have hstep : d.step CardEvent.clickStop = d := by
        obtain ⟨_, _, _, _⟩ := d
        simp_all [Dashboard.step, Card.step]
      have hrun : (d.run (CardEvent.clickStop :: es)) = d.run es := by
        simp only [Dashboard.run, hstep]
      rw [hrun, ih d hs ha hr hp hd ht hi]
      simp
    | wait ms =>
      have hstep : d.step (CardEvent.wait ms)
          = { d with card := { d.card with now := d.card.now + ms } } := by
        simp [Dashboard.step, Card.step, hs, Card.wait_idle d.card ms ht hi]
      have hrun : (d.run (CardEvent.wait ms :: es))
          = Dashboard.run { d with card := { d.card with now := d.card.now + ms } } es := by
        simp only [Dashboard.run, hstep]
      have hih := ih { d with card := { d.card with now := d.card.now + ms } }
        hs ha hr hp hd ht hi
      rw [hrun]
      exact hih.trans (by simp)

/-- C20 (as stated, refuted): after Start, the 8 s of recording and the 3 s of
processing the card shows its result and is neither recording nor processing, yet
`consultationActive` is still true and the patient list is still hidden. -/
theorem consultationActive_after_result :
    (Dashboard.run {} [CardEvent.clickStart, CardEvent.wait 8000,
        CardEvent.wait 3000]).card.inProgress = false
      ∧ (Dashboard.run {} [CardEvent.clickStart, CardEvent.wait 8000,
          CardEvent.wait 3000]).card.patientData = some extractedData
      ∧ (Dashboard.run {} [CardEvent.clickStart, CardEvent.wait 8000,
          CardEvent.wait 3000]).card.now = 11000
      ∧ (Dashboard.run {} [CardEvent.clickStart, CardEvent.wait 8000,
          CardEvent.wait 3000]).consultationActive = true
      ∧ (Dashboard.run {} [CardEvent.clickStart, CardEvent.wait 8000,
          CardEvent.wait 3000]).showsPatientList = false := by
  decide

/-- C20 (amended): in the default dashboard view `consultationActive` is false until the
first click on Start and true from then on, whatever follows: the patient list is shown
exactly as long as no consultation has been started, and a flag that is set stays set,
so the list remains hidden after the consultation has produced its result. -/
theorem consultationActive_iff_started (evs : List CardEvent) :
    ((Dashboard.run {} evs).consultationActive = true ↔ CardEvent.clickStart ∈ evs)
      ∧ ((Dashboard.run {} evs).showsPatientList = true ↔ CardEvent.clickStart ∉ evs)
      ∧ ∀ (d : Dashboard) (more : List CardEvent), d.consultationActive = true →
          (d.run more).consultationActive = true := by
  have h1 := Dashboard.run_of_idle {} evs rfl rfl rfl rfl rfl rfl rfl
  refine ⟨h1, ?_, fun d more h => Dashboard.run_active d more h⟩
  have hs : (Dashboard.run {} evs).showPatientRecords = false :=
    Dashboard.run_showPatientRecords {} evs
  simp only [Dashboard.showsPatientList, hs]
  rw [← h1]
  simp

theorem consultationActive_iff_started_witness :
    (Dashboard.run
        (Dashboard.run {} [CardEvent.clickStart, CardEvent.wait 8000])
        [CardEvent.wait 3000]).consultationActive = true :=
  (consultationActive_iff_started []).2.2
    (Dashboard.run {} [CardEvent.clickStart, CardEvent.wait 8000]) [CardEvent.wait 3000]
    (by decide)

/-! ## The recording clock -/

theorem digitsValue_append (xs ys : List Char) :
    digitsValue (xs ++ ys)
      = ys.foldl (fun acc c => acc * 10 + (c.toNat - '0'.toNat)) (digitsValue xs) := by
  simp [digitsValue, List.foldl_append]

theorem digitChar_value : ∀ d : Nat, d < 10 →
    (Nat.digitChar d).toNat - '0'.toNat = d ∧ Nat.digitChar d ≠ ':' := by
  decide

theorem toDigitsCore_append (f n : Nat) (ds : List Char) :
    Nat.toDigitsCore 10 f n ds = Nat.toDigitsCore 10 f n [] ++ ds := by
  induction f generalizing n ds with
  | zero => simp [Nat.toDigitsCore]
  | succ f ih =>
    simp only [Nat.toDigitsCore]
    split
    · simp
    · rw [ih (n / 10) (Nat.digitChar (n % 10) :: ds), ih (n / 10) [Nat.digitChar (n % 10)]]
      simp

/-- The digits `toString` writes for a number denote that number. -/
theorem digitsValue_toDigitsCore (f n : Nat) (h : n < f) :
    digitsValue (Nat.toDigitsCore 10 f n []) = n := by
  induction f generalizing n with
  | zero => exact absurd h (Nat.not_lt_zero _)
  | succ f ih =>
    have hd := (digitChar_value (n % 10) (Nat.mod_lt _ (by decide))).1
    simp only [Nat.toDigitsCore]
    split
    · rename_i h0
      simp only [digitsValue, List.foldl_cons, List.foldl_nil]
      rw [hd]
      omega
    · rename_i h0
      rw [toDigitsCore_append, digitsValue_append, ih (n / 10) (by omega)]
      simp only [List.foldl_cons, List.foldl_nil]
      rw [hd]
      omega

/-- No digit `toString` writes for a number is a colon. -/
theorem no_colon_toDigitsCore (f n : Nat) :
    ∀ c ∈ Nat.toDigitsCore 10 f n [], c ≠ ':' := by
  induction f generalizing n with
  | zero => simp [Nat.toDigitsCore]
  | succ f ih =>
    have hd := (digitChar_value (n % 10) (Nat.mod_lt _ (by decide))).2
    simp only [Nat.toDigitsCore]
    split
    · intro c hc
      rw [List.mem_singleton.mp hc]
      exact hd
    · rw [toDigitsCore_append]
      intro c hc
      rcases List.mem_append.mp hc with hc | hc
      · exact ih (n / 10) c hc
      · rw [List.mem_singleton.mp hc]
        exact hd

theorem toString_data (n : Nat) : (toString n).data = Nat.toDigitsCore 10 (n + 1) n [] :=
  rfl

theorem takeWhile_colon (xs ys : List Char) (h : ∀ c ∈ xs, c ≠ ':') :
    (xs ++ ':' :: ys).takeWhile (fun c => decide (c ≠ ':')) = xs
      ∧ (xs ++ ':' :: ys).dropWhile (fun c => decide (c ≠ ':')) = ':' :: ys := by
  induction xs with
  | nil => simp
  | cons x xs ih =>
    have hx : x ≠ ':' := h x (List.mem_cons_self _ _)
    have ih1 := ih (fun c hc => h c (List.mem_cons_of_mem _ hc))
    have hdx : decide (x ≠ ':') = true := decide_eq_true hx
    simp only [List.cons_append, List.takeWhile_cons, List.dropWhile_cons, hdx, if_true,
      ih1.1, ih1.2, and_self]

set_option maxRecDepth 100000 in
/-- The seconds part for each remainder below 60: two digits that denote it. -/
theorem seconds_two_digits : ∀ k : Nat, k < 60 →
    (padStart (toString k) 2 "0").length = 2
      ∧ digitsValue (padStart (toString k) 2 "0").data = k
      ∧ (padStart (toString k) 2 "0").data.all Char.isDigit = true := by
  decide

theorem formatTime_data (s : Nat) :
    (formatTime s).data
      = (toString (s / 60)).data ++ ':' :: (padStart (toString (s % 60)) 2 "0").data := by
  simp [formatTime, String.data_append]

theorem readTime_formatTime (s : Nat) : readTime (formatTime s) = s := by
  have hcolon : ∀ c ∈ (toString (s / 60)).data, c ≠ ':' := by
    rw [toString_data]
    exact no_colon_toDigitsCore _ _
  have hsplit := takeWhile_colon (toString (s / 60)).data
    (padStart (toString (s % 60)) 2 "0").data hcolon
  have hmin : digitsValue (toString (s / 60)).data = s / 60 := by
    rw [toString_data]
    exact digitsValue_toDigitsCore _ _ (Nat.lt_succ_self _)
  have hsec := (seconds_two_digits (s % 60) (Nat.mod_lt _ (by decide))).2.1
  simp only [readTime, formatTime_data, hsplit.1, hsplit.2, List.drop_succ_cons, List.drop_zero,
    hmin, hsec]
  omega

/-- C25: for every non-negative integer `s`, `formatTime(s)` is the decimal numeral of
`floor(s / 60)`, a colon, and `s mod 60` written with exactly two digits; the seconds
part denotes a number below 60, reading the result back as minutes * 60 + seconds gives
`s`, so the mapping is injective; and `formatTime(0) = "0:00"`, `formatTime(8) = "0:08"`,
`formatTime(75) = "1:15"`. -/
theorem formatTime_spec (s : Nat) :
    (∃ sec : String,
        formatTime s = toString (s / 60) ++ ":" ++ sec
          ∧ sec.length = 2
          ∧ sec.data.all Char.isDigit = true
          ∧ digitsValue sec.data = s % 60
          ∧ s % 60 < 60)
      ∧ digitsValue (toString (s / 60)).data = s / 60
      ∧ readTime (formatTime s) = s
      ∧ (∀ t : Nat, formatTime t = formatTime s → t = s)
      ∧ formatTime 0 = "0:00" ∧ formatTime 8 = "0:08" ∧ formatTime 75 = "1:15" := by
  have hk := seconds_two_digits (s % 60) (Nat.mod_lt _ (by decide))
  refine ⟨⟨padStart (toString (s % 60)) 2 "0", rfl, hk.1, hk.2.2, hk.2.1,
    Nat.mod_lt _ (by decide)⟩, ?_, readTime_formatTime s, ?_, by decide, by decide, by decide⟩
  · rw [toString_data]
    exact digitsValue_toDigitsCore _ _ (Nat.lt_succ_self _)
  · intro t h
    have h1 := readTime_formatTime t
    rw [h, readTime_formatTime s] at h1
    exact h1.symm

theorem formatTime_spec_witness : (3599 : Nat) = 3599 ∧ formatTime 3599 = "59:59" :=
  ⟨(formatTime_spec 3599).2.2.2.1 3599 rfl, by decide⟩

/-! ## The avatar initials -/

/-- The template string of the call site is never empty: it always holds the blank
between the two names. -/
theorem avatar_name_ne_empty (user : Option User) :
    orEmpty (user.bind fun u => u.firstName) ++ " "
      ++ orEmpty (user.bind fun u => u.lastName) ≠ "" := by
  intro h
  have hd := congrArg String.data h
  simp [String.data_append] at hd

/-- C21: for a user without names (no user, a user with both names missing, or both
empty) the avatar text is `undefined`, not "U": the string passed to `getInitials` is
" ", which the guard `!name` lets through and `trim` empties, so `parts[0][0]` indexes
an empty string. The guard returns "U" only for the empty string, which the call site
never passes. With both names present the text is the two first letters. -/
theorem avatarText_no_name_undefined :
    avatarText none = JsText.undefined
      ∧ avatarText (some {}) = JsText.undefined
      ∧ avatarText (some { firstName := some "", lastName := some "" }) = JsText.undefined
      ∧ getInitials " " = JsText.undefined
      ∧ getInitials "" = JsText.text "U"
      ∧ avatarText (some { firstName := some "John", lastName := some "Smith" })
          = JsText.text "JS"
      ∧ avatarText (some { firstName := some "John" }) = JsText.text "J" := by
  decide

/-! ## Sign-up -/

/-- C22: `handleSignup` posts to `/api/auth/signup` if and only if `password` and
`rePassword` are equal. With different passwords it sends nothing, raises the error
"Passwords do not match!" and does not navigate; with equal passwords it sends exactly
one request, whose body has the properties role, firstName, lastName, email and
password with the values of the form, and no `rePassword`. -/
theorem handleSignup_sends_iff (form : SignupForm) (outcome : SignupOutcome) :
    ((handleSignup form outcome).requests ≠ [] ↔ form.password = form.rePassword)
      ∧ (form.password ≠ form.rePassword →
          handleSignup form outcome
            = { requests := [], alerts := [("Error", "Passwords do not match!", "error")],
                navigated := [] })
      ∧ (form.password = form.rePassword →
          (handleSignup form outcome).requests
              = [[("role", form.role), ("firstName", form.firstName),
                  ("lastName", form.lastName), ("email", form.email),
                  ("password", form.password)]]
            ∧ (handleSignup form outcome).requests.length = 1
            ∧ ∀ body ∈ (handleSignup form outcome).requests,
                body.map Prod.fst = ["role", "firstName", "lastName", "email", "password"]
                  ∧ "rePassword" ∉ body.map Prod.fst) := by
  by_cases h : form.password = form.rePassword
  · have hreq : (handleSignup form outcome).requests
        = [[("role", form.role), ("firstName", form.firstName),
            ("lastName", form.lastName), ("email", form.email),
            ("password", form.password)]] := by
      cases outcome <;> simp [handleSignup, h]
    refine ⟨⟨fun _ => h, fun _ => by rw [hreq]; simp⟩, fun hne => absurd h hne, fun _ => ?_⟩
    refine ⟨hreq, by rw [hreq]; rfl, ?_⟩
    intro body hb
    rw [hreq, List.mem_singleton] at hb
    subst hb
    exact ⟨rfl, by simp⟩
  · have hall : handleSignup form outcome
        = { requests := [], alerts := [("Error", "Passwords do not match!", "error")],
            navigated := [] } := by
      simp [handleSignup, h]
    refine ⟨⟨fun hr => ?_, fun he => absurd he h⟩, fun _ => hall, fun he => absurd he h⟩
    rw [hall] at hr
    exact absurd rfl hr

theorem handleSignup_sends_iff_witness :
    handleSignup ⟨"Doctor", "John", "Smith", "john@med.ai", "secret", "secrez"⟩
        SignupOutcome.success
        = { requests := [], alerts := [("Error", "Passwords do not match!", "error")],
            navigated := [] }
      ∧ (handleSignup ⟨"Doctor", "John", "Smith", "john@med.ai", "secret", "secret"⟩
          SignupOutcome.success).requests
        = [[("role", "Doctor"), ("firstName", "John"), ("lastName", "Smith"),
            ("email", "john@med.ai"), ("password", "secret")]] :=
  ⟨(handleSignup_sends_iff ⟨"Doctor", "John", "Smith", "john@med.ai", "secret", "secrez"⟩
      SignupOutcome.success).2.1 (by decide),
    ((handleSignup_sends_iff ⟨"Doctor", "John", "Smith", "john@med.ai", "secret", "secret"⟩
      SignupOutcome.success).2.2 rfl).1⟩

/-! ## The Symptoms and Name inputs -/

/-- The entities the Symptoms input writes: one Symptom per non-blank comma-separated
piece of the text, trimmed, in order; whatever `entities` held before is not read. -/
theorem symptomsOnChange_entities (value : String) (prev : List (String × JsValue)) :
    getProp (symptomsOnChange value prev) "entities"
      = JsValue.array
          (((split value ',').filter fun sym => decide (trim sym ≠ "")).map fun sym =>
            JsValue.object
              [("type", JsValue.string "Symptom"), ("entity", JsValue.string (trim sym))]) :=
  getProp_setProp_same _ _ _

/-- C23: in a state whose entities are a Disease "Malaria" and a Symptom "Fever", typing
"Fever, Cough" into the Symptoms field leaves the two Symptom entities "Fever" and
"Cough", in that order, and nothing else: the Disease entity is gone. The properties of
the state other than `entities` are unchanged. -/
theorem symptomsOnChange_drops_other_entities :
    getProp namedState "entities"
        = JsValue.array
            [JsValue.object
                [("entity", JsValue.string "Malaria"), ("type", JsValue.string "Disease")],
              JsValue.object
                [("entity", JsValue.string "Fever"), ("type", JsValue.string "Symptom")]]
      ∧ getProp (symptomsOnChange "Fever, Cough" namedState) "entities"
        = JsValue.array
            [JsValue.object
                [("type", JsValue.string "Symptom"), ("entity", JsValue.string "Fever")],
              JsValue.object
                [("type", JsValue.string "Symptom"), ("entity", JsValue.string "Cough")]]
      ∧ getProp (symptomsOnChange "Fever, Cough" namedState) "patient"
        = getProp namedState "patient" :=
  ⟨rfl, rfl, rfl⟩

/-- C24: in a state whose `patient.name` has a family name, two given names and a full
name, typing "Jon" into the Name field leaves `patient.name` equal to `{given: ["Jon"]}`:
the family name, the full name and the second given name are gone. The other properties
of `patient` and of the state are unchanged. -/
theorem nameOnChange_drops_name_fields :
    getProp (spread (getProp namedState "patient")) "name"
        = JsValue.object
            [("family", JsValue.string "Smith"),
              ("given", JsValue.array [JsValue.string "John", JsValue.string "Paul"]),
              ("fullName", JsValue.string "John Paul Smith")]
      ∧ getProp (spread (getProp (nameOnChange "Jon" namedState) "patient")) "name"
        = JsValue.object [("given", JsValue.array [JsValue.string "Jon"])]
      ∧ getProp (spread (getProp (nameOnChange "Jon" namedState) "patient")) "gender"
        = JsValue.string "male"
      ∧ getProp (nameOnChange "Jon" namedState) "entities" = getProp namedState "entities"
      ∧ getProp (nameOnChange "Jon" namedState) "patientId"
        = getProp namedState "patientId" :=
  ⟨rfl, rfl, rfl, rfl, rfl⟩

end Med
